import Mathlib

/-!
Verification of `scripts/analyze_migration_log.py` (migration log analyzer).

The Python program is embedded shallowly: each function of the source is
translated into an executable Lean definition over `List Char` / `String`,
`Nat` and `Int`.  Timestamps (`datetime`) are modelled by a record of
calendar fields plus an exact conversion to seconds; Python `float` values
that the program derives from decimal literals in the log are modelled by
exact decimals (every number the program manipulates is an integer number
of seconds or a short decimal literal, so no rounding behaviour of binary
floats is exercised by the properties proved here; fixed-point rendering
uses round-half-to-even like CPython's formatting).

File layout: definitions (translated from the source, in source order),
then the theorems settling the claims.
-/

namespace MigLog

/-- ASCII model of the regex class `\d` used throughout the source. -/
def isDig (c : Char) : Bool := '0' ≤ c && c ≤ '9'

/-- ASCII model of the regex class `\s` (also the default `str.strip` set). -/
def isSpc (c : Char) : Bool :=
  c = ' ' || c = '\t' || c = '\n' || c = '\r' || c = '\x0b' || c = '\x0c'

/-- ASCII model of the regex class `\w`. -/
def isWordC (c : Char) : Bool :=
  isDig c || ('a' ≤ c && c ≤ 'z') || ('A' ≤ c && c ≤ 'Z') || c = '_'

/-- Numeric value of a digit character. -/
def digVal (c : Char) : Nat := c.toNat - '0'.toNat

/-- Value of a run of digit characters, most significant first
(Python `int(...)` applied to a regex group of digits). -/
def natOfDigits (ds : List Char) : Nat := ds.foldl (fun acc c => 10 * acc + digVal c) 0

/-- `litAt lit cs`: `cs` starts with the literal character sequence `lit`. -/
def litAt : List Char → List Char → Bool
  | [], _ => true
  | _ :: _, [] => false
  | l :: ls, c :: cs => l = c && litAt ls cs

/-- Python's substring test `pat in s` (also an unanchored `re.search` for a
pattern with no metacharacters): `pat` occurs contiguously in `cs`. -/
def hasSub (pat : List Char) : List Char → Bool
  | [] => litAt pat []
  | c :: cs => litAt pat (c :: cs) || hasSub pat cs

/-- `pat in line` on `String`s. -/
def strHas (s pat : String) : Bool := hasSub pat.data s.data

/-- Regex `\d{n}` at the current position: exactly `n` digit characters,
returning their value and the rest. -/
def matchDigits (n : Nat) (cs : List Char) : Option (Nat × List Char) :=
  let pre := cs.take n
  if (pre.length == n) && pre.all isDig then some (natOfDigits pre, cs.drop n) else none

/-- A single literal character at the current position. -/
def matchCh (c : Char) : List Char → Option (List Char)
  | x :: xs => if x = c then some xs else none
  | [] => none

/-! ### `parse_log` (source lines 32–59)

The timestamp regex is
`(\d{2}/\d{2}/\d{2}|\d{4}-\d{2}-\d{2})\s+(\d{2}:\d{2}:\d{2})`.
`re.search` tries each start position from the left; at a given position the
first alternative is tried before the second (they can never both match at
one position, since one requires `/` and the other a digit as third
character).  `\s+` is modelled by the maximal whitespace run: backtracking
to a shorter run cannot help, because the following token `\d{2}` requires a
digit and every character given back is whitespace. -/

/-- First date alternative `\d{2}/\d{2}/\d{2}`. -/
def dateAlt1 (cs : List Char) : Option (Nat × Nat × Nat × List Char) :=
  match matchDigits 2 cs with
  | none => none
  | some (a, r1) =>
    match matchCh '/' r1 with
    | none => none
    | some r2 =>
      match matchDigits 2 r2 with
      | none => none
      | some (b, r3) =>
        match matchCh '/' r3 with
        | none => none
        | some r4 =>
          match matchDigits 2 r4 with
          | none => none
          | some (c, r5) => some (a, b, c, r5)

/-- Second date alternative `\d{4}-\d{2}-\d{2}`. -/
def dateAlt2 (cs : List Char) : Option (Nat × Nat × Nat × List Char) :=
  match matchDigits 4 cs with
  | none => none
  | some (a, r1) =>
    match matchCh '-' r1 with
    | none => none
    | some r2 =>
      match matchDigits 2 r2 with
      | none => none
      | some (b, r3) =>
        match matchCh '-' r3 with
        | none => none
        | some r4 =>
          match matchDigits 2 r4 with
          | none => none
          | some (c, r5) => some (a, b, c, r5)

/-- The date group: alternative 1 first, else alternative 2.  The `Bool` is
`true` for the slash (two-digit-year) form — Python's `'/' in date_str`. -/
def dateAt (cs : List Char) : Option (Bool × Nat × Nat × Nat × List Char) :=
  match dateAlt1 cs with
  | some (a, b, c, r) => some (true, a, b, c, r)
  | none =>
    match dateAlt2 cs with
    | some (a, b, c, r) => some (false, a, b, c, r)
    | none => none

/-- The time group `\d{2}:\d{2}:\d{2}`. -/
def timeAt (cs : List Char) : Option (Nat × Nat × Nat) :=
  match matchDigits 2 cs with
  | none => none
  | some (h, r1) =>
    match matchCh ':' r1 with
    | none => none
    | some r2 =>
      match matchDigits 2 r2 with
      | none => none
      | some (mi, r3) =>
        match matchCh ':' r3 with
        | none => none
        | some r4 =>
          match matchDigits 2 r4 with
          | none => none
          | some (s, _) => some (h, mi, s)

/-- The numeric fields of a raw (not yet validated) timestamp match. -/
structure RawTS where
  slash : Bool
  d1 : Nat
  d2 : Nat
  d3 : Nat
  hh : Nat
  mi : Nat
  ss : Nat
deriving DecidableEq, Repr

/-- The whole timestamp pattern anchored at the current position. -/
def tsAt (cs : List Char) : Option RawTS :=
  match dateAt cs with
  | none => none
  | some (k, a, b, c, rest) =>
    if (rest.takeWhile isSpc).isEmpty then none
    else
      match timeAt (rest.dropWhile isSpc) with
      | none => none
      | some (h, mi, s) => some ⟨k, a, b, c, h, mi, s⟩

/-- `re.search`: the match at the leftmost feasible start position. -/
def findTS : List Char → Option RawTS
  | [] => none
  | c :: cs =>
    match tsAt (c :: cs) with
    | some r => some r
    | none => findTS cs

/-! ### `datetime.strptime` model (source lines 47–57)

`%y` pivots two-digit years: 00–68 → 2000–2068, 69–99 → 1969–1999.
`datetime.strptime` raises `ValueError` (and the source then skips the
line) unless the fields form a valid calendar instant: `MINYEAR = 1`,
month 1–12, day within the month, hour ≤ 23, minute ≤ 59, second ≤ 59. -/

/-- A parsed `datetime` value (second resolution, as in the log). -/
structure DateTime where
  year : Nat
  month : Nat
  day : Nat
  hour : Nat
  minute : Nat
  second : Nat
deriving DecidableEq, Repr

/-- The `%y` century pivot. -/
def pivotY (y2 : Nat) : Nat := if y2 ≤ 68 then 2000 + y2 else 1900 + y2

/-- Gregorian leap year. -/
def isLeap (y : Nat) : Bool := y % 4 == 0 && (y % 100 != 0 || y % 400 == 0)

/-- Length of a month. -/
def daysInMonth (y m : Nat) : Nat :=
  if m = 2 then (if isLeap y then 29 else 28)
  else if m = 4 ∨ m = 6 ∨ m = 9 ∨ m = 11 then 30
  else 31

/-- `strptime` on the two recognised formats: `some` of the instant if the
fields are valid, `none` for the `ValueError` path. -/
def mkDT (r : RawTS) : Option DateTime :=
  let y := if r.slash then pivotY r.d1 else r.d1
  if 1 ≤ y ∧ 1 ≤ r.d2 ∧ r.d2 ≤ 12 ∧ 1 ≤ r.d3 ∧ r.d3 ≤ daysInMonth y r.d2
      ∧ r.hh ≤ 23 ∧ r.mi ≤ 59 ∧ r.ss ≤ 59 then
    some ⟨y, r.d2, r.d3, r.hh, r.mi, r.ss⟩
  else none

/-- One entry of `self.events`: `(timestamp, line number, stripped line)`. -/
structure Event where
  ts : DateTime
  lineNum : Nat
  text : String
deriving DecidableEq, Repr

/-- Python `line.strip()` (ASCII whitespace). -/
def pyStrip (s : String) : String :=
  ⟨((s.data.dropWhile isSpc).reverse.dropWhile isSpc).reverse⟩

/-- Timestamp extraction for one line: leftmost regex match, then `strptime`;
`none` both when the regex finds nothing and when the match is invalid. -/
def parseLine (s : String) : Option DateTime := (findTS s.data).bind mkDT

/-- The loop of `parse_log` with the running line number
(`enumerate(lines, 1)`). -/
def parse_log_from (n : Nat) : List String → List Event
  | [] => []
  | l :: ls =>
    match parseLine l with
    | some dt => ⟨dt, n, pyStrip l⟩ :: parse_log_from (n + 1) ls
    | none => parse_log_from (n + 1) ls

/-- `parse_log`, source lines 42–57: the input file as a list of lines
(without terminators); line numbers start at 1; lines whose timestamp is
missing or invalid are skipped silently. -/
def parse_log (lines : List String) : List Event :=
  parse_log_from 1 lines

/-! ### In-line metric extraction helpers (source lines 80–107)

Each models one `re.search` call.  `re.search` scans start positions from
the left; greedy `\d+` / `[\d.]+` runs are modelled by the maximal run,
which is exact because the token that follows each run (`\s+` or a literal)
cannot consume a character of the run's class. -/

/-- `re.search(r'(\d+)\s+partitions', line)`, source line 80. -/
def findNumBefore (lit : List Char) : List Char → Option Nat
  | [] => none
  | c :: cs =>
    let ds := (c :: cs).takeWhile isDig
    let rest := (c :: cs).dropWhile isDig
    if !ds.isEmpty && !(rest.takeWhile isSpc).isEmpty && litAt lit (rest.dropWhile isSpc) then
      some (natOfDigits ds)
    else
      findNumBefore lit cs

/-- `re.search(r'<label>\s*(\d+)', content)` (e.g. `Rows copied:`,
`Rows Read:` …): leftmost occurrence of the label that is followed, after
optional whitespace, by at least one digit. -/
def findLabelNat (lit : List Char) : List Char → Option Nat
  | [] => none
  | c :: cs =>
    if litAt lit (c :: cs) then
      let rest := ((c :: cs).drop lit.length).dropWhile isSpc
      let ds := rest.takeWhile isDig
      if !ds.isEmpty then some (natOfDigits ds) else findLabelNat lit cs
    else
      findLabelNat lit cs

/-- A nonnegative decimal number `mant / 10 ^ exp`, the exact value of a
decimal literal in the log.  Models the Python `float` the program builds
from such a literal: the program never computes with these values, it only
stores and formats them, so the exact-decimal abstraction is adequate
(binary-float representation error could only show through formatting of
a tie at the rendered precision, which no property here depends on). -/
structure PyFloat where
  mant : Nat
  exp : Nat
deriving DecidableEq, Repr

/-- Python `float` applied to a regex group matching `[\d.]+`: `some` of
its value when the group is a float literal (at most one dot, at least one
digit), `none` when `float(...)` raises `ValueError`.  The raise aborts
the whole run (exit 1, no report); which runs abort is captured by
`analyzeRaises` below — the metric-left-unset state that `step` /
`extractMetrics` build in the `none` case is not observable in the
program. -/
def pyFloat (run : List Char) : Option PyFloat :=
  let intPart := run.takeWhile isDig
  match run.dropWhile isDig with
  | [] => if intPart.isEmpty then none else some ⟨natOfDigits intPart, 0⟩
  | c :: rest =>
    if c = '.' ∧ rest.all isDig ∧ !(intPart.isEmpty ∧ rest.isEmpty) then
      some ⟨natOfDigits (intPart ++ rest), rest.length⟩
    else none

/-- `re.search(r'took\s+([\d.]+)\s+s', line)`, source line 105. -/
def findTook : List Char → Option (List Char)
  | [] => none
  | c :: cs =>
    (if litAt "took".data (c :: cs) then
      let r1 := (c :: cs).drop 4
      if (r1.takeWhile isSpc).isEmpty then none
      else
        let r2 := r1.dropWhile isSpc
        let run := r2.takeWhile (fun x => isDig x || x = '.')
        let r3 := r2.dropWhile (fun x => isDig x || x = '.')
        if !run.isEmpty && !(r3.takeWhile isSpc).isEmpty
            && litAt "s".data (r3.dropWhile isSpc) then
          some run
        else none
    else none).orElse fun _ => findTook cs

/-- `self.metrics`: one optional slot per key the program ever writes. -/
structure Metrics where
  partition_count : Option Nat := none
  first_copy_rows : Option Nat := none
  job_duration_seconds : Option PyFloat := none
  rows_read : Option Nat := none
  rows_written : Option Nat := none
  rows_skipped : Option Nat := none
  throughput : Option PyFloat := none
  elapsed_time_seconds : Option Nat := none
  partitions_completed : Option Nat := none
  partitions_failed : Option Nat := none
  table_name : Option String := none
deriving DecidableEq, Repr

/-- `if self.metrics:` — dict truthiness. -/
def Metrics.nonempty (m : Metrics) : Bool :=
  m.partition_count.isSome || m.first_copy_rows.isSome || m.job_duration_seconds.isSome
    || m.rows_read.isSome || m.rows_written.isSome || m.rows_skipped.isSome
    || m.throughput.isSome || m.elapsed_time_seconds.isSome
    || m.partitions_completed.isSome || m.partitions_failed.isSome || m.table_name.isSome

/-- The analyzer's mutable state: the milestone dict (insertion-ordered
association list; keys are written at most once) and the metrics. -/
structure MState where
  milestones : List (String × DateTime) := []
  metrics : Metrics := {}
deriving DecidableEq, Repr

/-- `'name' in self.milestones`. -/
def MState.hasMile (st : MState) (k : String) : Bool := (st.milestones.lookup k).isSome

/-- `self.milestones['k'] = ts` for a key known to be absent (Python dicts
append new keys at the end). -/
def MState.addMile (st : MState) (k : String) (ts : DateTime) : MState :=
  { st with milestones := st.milestones ++ [(k, ts)] }

/-- Source lines 79–82: partition-count extraction inside the
`partitions_calculated` branch. -/
def withPartitionMetric (st : MState) (line : String) : MState :=
  match findNumBefore "partitions".data line.data with
  | some n => { st with metrics := { st.metrics with partition_count := some n } }
  | none => st

/-- Source lines 95–98: rows-copied extraction inside the
`first_copy_completed` branch. -/
def withCopyRowsMetric (st : MState) (line : String) : MState :=
  match findLabelNat "Rows copied:".data line.data with
  | some n => { st with metrics := { st.metrics with first_copy_rows := some n } }
  | none => st

/-- Source lines 104–107: job-duration extraction inside the
`job_finished` branch. -/
def withJobDurMetric (st : MState) (line : String) : MState :=
  match (findTook line.data).bind pyFloat with
  | some q => { st with metrics := { st.metrics with job_duration_seconds := some q } }
  | none => st

/-- The body of the `for` loop of `identify_milestones`, source lines
65–118: an if/elif chain, so per line only the first matching branch
fires.  Eleven branches carry their `'name' not in self.milestones` guard
in the branch condition itself; four (`job_started`, `first_task_started`,
`job_finished`, `validation_complete`) test it inside the branch body. -/
def step (st : MState) (e : Event) : MState :=
  if strHas e.text "Spark session created" && !(st.hasMile "spark_session") then
    st.addMile "spark_session" e.ts
  else if strHas e.text "SparkContext: Submitted application" && !(st.hasMile "app_submitted") then
    st.addMile "app_submitted" e.ts
  else if strHas e.text "Reading table:" && !(st.hasMile "reading_table") then
    st.addMile "reading_table" e.ts
  else if strHas e.text "Successfully read table" && !(st.hasMile "table_read") then
    st.addMile "table_read" e.ts
  else if strHas e.text "DataFrame has" && strHas e.text "partitions"
      && !(st.hasMile "partitions_calculated") then
    withPartitionMetric (st.addMile "partitions_calculated" e.ts) e.text
  else if strHas e.text "Starting migration for table" && !(st.hasMile "migration_start") then
    st.addMile "migration_start" e.ts
  else if strHas e.text "Starting job: foreachPartition" || strHas e.text "Got job 0" then
    if !(st.hasMile "job_started") then st.addMile "job_started" e.ts else st
  else if strHas e.text "Submitting.*missing tasks" || strHas e.text "Starting task 0.0" then
    if !(st.hasMile "first_task_started") then st.addMile "first_task_started" e.ts else st
  else if strHas e.text "COPY operation completed" && !(st.hasMile "first_copy_completed") then
    withCopyRowsMetric (st.addMile "first_copy_completed" e.ts) e.text
  else if strHas e.text "Partition completed:" && !(st.hasMile "first_partition_completed") then
    st.addMile "first_partition_completed" e.ts
  else if strHas e.text "Job 0 finished" || strHas e.text "ResultStage.*finished" then
    if !(st.hasMile "job_finished") then
      withJobDurMetric (st.addMile "job_finished" e.ts) e.text
    else st
  else if strHas e.text "Migration completed for table" && !(st.hasMile "migration_complete") then
    st.addMile "migration_complete" e.ts
  else if strHas e.text "Running validation" && !(st.hasMile "validation_start") then
    st.addMile "validation_start" e.ts
  else if strHas e.text "Row count validation passed" || strHas e.text "validation.*passed" then
    if !(st.hasMile "validation_complete") then st.addMile "validation_complete" e.ts else st
  else if strHas e.text "Migration Summary" && !(st.hasMile "summary") then
    st.addMile "summary" e.ts
  else st

/-- The line-dependent part of each branch condition of `step` (the
pattern test of each milestone rule, with the already-recorded guards
stripped).  Used to state which lines can ever record a milestone. -/
def trigger (k line : String) : Bool :=
  if k = "spark_session" then strHas line "Spark session created"
  else if k = "app_submitted" then strHas line "SparkContext: Submitted application"
  else if k = "reading_table" then strHas line "Reading table:"
  else if k = "table_read" then strHas line "Successfully read table"
  else if k = "partitions_calculated" then strHas line "DataFrame has" && strHas line "partitions"
  else if k = "migration_start" then strHas line "Starting migration for table"
  else if k = "job_started" then
    strHas line "Starting job: foreachPartition" || strHas line "Got job 0"
  else if k = "first_task_started" then
    strHas line "Submitting.*missing tasks" || strHas line "Starting task 0.0"
  else if k = "first_copy_completed" then strHas line "COPY operation completed"
  else if k = "first_partition_completed" then strHas line "Partition completed:"
  else if k = "job_finished" then
    strHas line "Job 0 finished" || strHas line "ResultStage.*finished"
  else if k = "migration_complete" then strHas line "Migration completed for table"
  else if k = "validation_start" then strHas line "Running validation"
  else if k = "validation_complete" then
    strHas line "Row count validation passed" || strHas line "validation.*passed"
  else if k = "summary" then strHas line "Migration Summary"
  else false

/-! ### `_extract_metrics` (source lines 123–155): whole-file scans. -/

/-- `re.search(r'Throughput:\s*([\d.]+)\s+rows/sec', content)`. -/
def findThroughput : List Char → Option (List Char)
  | [] => none
  | c :: cs =>
    (if litAt "Throughput:".data (c :: cs) then
      let r1 := ((c :: cs).drop "Throughput:".data.length).dropWhile isSpc
      let run := r1.takeWhile (fun x => isDig x || x = '.')
      let r2 := r1.dropWhile (fun x => isDig x || x = '.')
      if !run.isEmpty && !(r2.takeWhile isSpc).isEmpty
          && litAt "rows/sec".data (r2.dropWhile isSpc) then
        some run
      else none
    else none).orElse fun _ => findThroughput cs

/-- `re.search(r'Elapsed Time:\s*(\d+)\s+seconds?', content)`. -/
def findElapsed : List Char → Option Nat
  | [] => none
  | c :: cs =>
    (if litAt "Elapsed Time:".data (c :: cs) then
      let r1 := ((c :: cs).drop "Elapsed Time:".data.length).dropWhile isSpc
      let ds := r1.takeWhile isDig
      let r2 := r1.dropWhile isDig
      if !ds.isEmpty && !(r2.takeWhile isSpc).isEmpty
          && litAt "second".data (r2.dropWhile isSpc) then
        some (natOfDigits ds)
      else none
    else none).orElse fun _ => findElapsed cs

/-- `re.search(r'Migrating table:\s*([\w.]+)', content)`. -/
def findTableName : List Char → Option String
  | [] => none
  | c :: cs =>
    (if litAt "Migrating table:".data (c :: cs) then
      let r1 := ((c :: cs).drop "Migrating table:".data.length).dropWhile isSpc
      let run := r1.takeWhile (fun x => isWordC x || x = '.')
      if !run.isEmpty then some ⟨run⟩ else none
    else none).orElse fun _ => findTableName cs

/-- `_extract_metrics`: whole-file regex scans over the raw content, each
key set only when its pattern matches. -/
def extractMetrics (content : List Char) (m : Metrics) : Metrics :=
  let m := match findLabelNat "Rows Read:".data content with
           | some n => { m with rows_read := some n } | none => m
  let m := match findLabelNat "Rows Written:".data content with
           | some n => { m with rows_written := some n } | none => m
  let m := match findLabelNat "Rows Skipped:".data content with
           | some n => { m with rows_skipped := some n } | none => m
  let m := match (findThroughput content).bind pyFloat with
           | some q => { m with throughput := some q } | none => m
  let m := match findElapsed content with
           | some n => { m with elapsed_time_seconds := some n } | none => m
  let m := match findLabelNat "Partitions Completed:".data content with
           | some n => { m with partitions_completed := some n } | none => m
  let m := match findLabelNat "Partitions Failed:".data content with
           | some n => { m with partitions_failed := some n } | none => m
  match findTableName content with
  | some t => { m with table_name := some t } | none => m

/-- `identify_milestones` (source lines 61–121): fold the chain over the
events, then run `_extract_metrics` on the raw content. -/
def identify_milestones (evs : List Event) (content : List Char) : MState :=
  let st := evs.foldl step {}
  { st with metrics := extractMetrics content st.metrics }

/-- The whole-file content seen by `_extract_metrics` (the file is read as
lines joined by newlines). -/
def contentOf (lines : List String) : List Char := (String.intercalate "\n" lines).data

/-- `parse_log` + `identify_milestones` on a file given as its lines. -/
def analyzeState (lines : List String) : MState :=
  identify_milestones (parse_log lines) (contentOf lines)

/-! ### The `ValueError` paths of the analysis stage

Two `float(...)` calls of the program can raise on a matched `[\d.]+`
group that is not a float literal (such as `.` or `1.2.3`): the
`took ... s` group in the `job_finished` branch (source line 107) and the
throughput group in `_extract_metrics` (source line 144).  Such a raise
propagates to `main`'s handler: the run exits with status 1 and no report
is written.  Every other conversion is `int` on a `\d+` group or a plain
string group and cannot raise.  `analyzeRaises` holds exactly when the
analysis stage raises; the states that `step`/`extractMetrics` build past
such a point are not observable in the program. -/

/-- The `job_finished` branch is selected (all earlier branches of the
chain decline the line) and its `float(...)` call raises: the milestone is
unset, the `took` regex matched, and the group is unconvertible. -/
def stepTookRaises (st : MState) (e : Event) : Bool :=
  !(strHas e.text "Spark session created" && !(st.hasMile "spark_session"))
  && !(strHas e.text "SparkContext: Submitted application" && !(st.hasMile "app_submitted"))
  && !(strHas e.text "Reading table:" && !(st.hasMile "reading_table"))
  && !(strHas e.text "Successfully read table" && !(st.hasMile "table_read"))
  && !(strHas e.text "DataFrame has" && strHas e.text "partitions"
        && !(st.hasMile "partitions_calculated"))
  && !(strHas e.text "Starting migration for table" && !(st.hasMile "migration_start"))
  && !(strHas e.text "Starting job: foreachPartition" || strHas e.text "Got job 0")
  && !(strHas e.text "Submitting.*missing tasks" || strHas e.text "Starting task 0.0")
  && !(strHas e.text "COPY operation completed" && !(st.hasMile "first_copy_completed"))
  && !(strHas e.text "Partition completed:" && !(st.hasMile "first_partition_completed"))
  && (strHas e.text "Job 0 finished" || strHas e.text "ResultStage.*finished")
  && !(st.hasMile "job_finished")
  && (match findTook e.text.data with
      | some run => (pyFloat run).isNone
      | none => false)

/-- Some step of the milestone loop raises (the loop stops there; `||` is
unaffected by the steps that would have followed). -/
def foldTookRaises : List Event → MState → Bool
  | [], _ => false
  | e :: es, st => stepTookRaises st e || foldTookRaises es (step st e)

/-- `_extract_metrics` raises: the throughput regex matched but its group
is not a float literal (`float(...)`, source line 144). -/
def extractMetricsRaises (content : List Char) : Bool :=
  match findThroughput content with
  | some run => (pyFloat run).isNone
  | none => false

/-- The analysis stage (`identify_milestones`, `_extract_metrics`) raises
on this input, aborting the run with no report. -/
def analyzeRaises (lines : List String) : Bool :=
  foldTookRaises (parse_log lines) {} || extractMetricsRaises (contentOf lines)

/-! ### `calculate_durations` (source lines 157–178) -/

/-- Days before year `y` since the (proleptic Gregorian) day 1-01-01. -/
def daysBeforeYear (y : Nat) : Nat :=
  365 * (y - 1) + (y - 1) / 4 - (y - 1) / 100 + (y - 1) / 400

/-- Days before month `m` in year `y`. -/
def daysBeforeMonth (y m : Nat) : Nat :=
  let base :=
    if m ≤ 1 then 0 else if m = 2 then 31 else if m = 3 then 59 else if m = 4 then 90
    else if m = 5 then 120 else if m = 6 then 151 else if m = 7 then 181
    else if m = 8 then 212 else if m = 9 then 243 else if m = 10 then 273
    else if m = 11 then 304 else 334
  if 3 ≤ m ∧ isLeap y then base + 1 else base

/-- Absolute second count of a `datetime`; differences of these are what
`(b - a).total_seconds()` returns (an integral float at this resolution). -/
def toSecs (d : DateTime) : Nat :=
  ((daysBeforeYear d.year + daysBeforeMonth d.year d.month + (d.day - 1)) * 24
      + d.hour) * 3600 + d.minute * 60 + d.second

/-- `(b - a).total_seconds()` in whole seconds. -/
def diffSecs (b a : DateTime) : Int := (toSecs b : Int) - (toSecs a : Int)

/-- One conditional entry of the durations dict: present exactly when both
endpoint milestones are (`if 'a' in milestones and 'b' in milestones:`),
holding `(milestones['b'] - milestones['a']).total_seconds()`. -/
def durEntry (k : String) (a b : Option DateTime) : List (String × Int) :=
  match a, b with
  | some x, some y => [(k, diffSecs y x)]
  | _, _ => []

/-- Source lines 167–170: the `migration` entry, with the
`first_task_started`/`migration_complete` fallback pair used only when the
primary `job_started`/`job_finished` pair is incomplete (`elif`). -/
def migrationEntry (ms : List (String × DateTime)) : List (String × Int) :=
  match ms.lookup "job_started", ms.lookup "job_finished" with
  | some a, some b => [("migration", diffSecs b a)]
  | _, _ =>
    durEntry "migration" (ms.lookup "first_task_started") (ms.lookup "migration_complete")

/-- `calculate_durations` (source lines 157–178): the durations dict as the
concatenation of its conditional entries, in insertion order. -/
def calculate_durations (ms : List (String × DateTime)) : List (String × Int) :=
  durEntry "init" (ms.lookup "spark_session") (ms.lookup "partitions_calculated")
    ++ durEntry "planning" (ms.lookup "reading_table") (ms.lookup "partitions_calculated")
    ++ migrationEntry ms
    ++ durEntry "validation" (ms.lookup "validation_start") (ms.lookup "validation_complete")
    ++ durEntry "total" (ms.lookup "spark_session") (ms.lookup "migration_complete")

/-! ### Formatting helpers for `generate_report` (source lines 180–311)

Python's fixed-point format specifiers round half-to-even.  Every value the
program formats is either a whole number of seconds (`Int`) or an exact
decimal (`PyFloat`), so the renderings below are the exact strings CPython
produces except for half-way ties of values that were decimal literals in
the log (where binary representation error decides the tie) — no property
proved here inspects such a digit. -/

/-- Decimal digit string of a natural number. -/
def natStr (n : Nat) : String := ⟨Nat.toDigits 10 n⟩

/-- Round `a / b` half-to-even (`b > 0`). -/
def rheNat (a b : Nat) : Nat :=
  let q := a / b
  let r := a % b
  if b < 2 * r then q + 1 else if 2 * r < b then q else if q % 2 = 0 then q else q + 1

/-- Digits of `m` left-padded with zeros to width `p`. -/
def padDigits (p m : Nat) : String :=
  let s := Nat.toDigits 10 m
  ⟨List.replicate (p - s.length) '0' ++ s⟩

/-- `'{:.pf}'` of a nonnegative exact decimal. -/
def fmtF (p : Nat) (f : PyFloat) : String :=
  let s := rheNat (f.mant * 10 ^ p) (10 ^ f.exp)
  natStr (s / 10 ^ p) ++ "." ++ padDigits p (s % 10 ^ p)

/-- `'{:.1f}'` of an integral float (a whole number of seconds). -/
def fmtInt1 (i : Int) : String := (if i < 0 then "-" else "") ++ natStr i.natAbs ++ ".0"

/-- `'{:.2f}'` of an integral float. -/
def fmtInt2 (i : Int) : String := (if i < 0 then "-" else "") ++ natStr i.natAbs ++ ".00"

/-- Group digits (already reversed, least significant first) in threes. -/
def group3 : List Char → List (List Char)
  | [] => []
  | [a] => [[a]]
  | [a, b] => [[a, b]]
  | a :: b :: c :: rest => [a, b, c] :: group3 rest

/-- `'{:,}'` of a natural number: thousands separators. -/
def commaNat (n : Nat) : String :=
  ⟨(List.intercalate [','] (group3 ((Nat.toDigits 10 n).reverse))).reverse⟩

/-- `'{:,.2f}'` of a nonnegative exact decimal. -/
def fmtFC2 (f : PyFloat) : String :=
  let s := rheNat (f.mant * 100) (10 ^ f.exp)
  commaNat (s / 100) ++ "." ++ padDigits 2 (s % 100)

/-- `strftime('%H:%M:%S')`. -/
def pad2 (n : Nat) : String := if n < 10 then "0" ++ natStr n else natStr n

/-- Timestamp cell of the timeline. -/
def fmtHMS (d : DateTime) : String :=
  pad2 d.hour ++ ":" ++ pad2 d.minute ++ ":" ++ pad2 d.second

/-- Python `str.title()` for the ASCII strings at hand: a letter becomes
upper-case after a non-letter, lower-case after a letter. -/
def titleGo : List Char → Bool → List Char
  | [], _ => []
  | c :: cs, prevAl =>
    let isAl := ('a' ≤ c && c ≤ 'z') || ('A' ≤ c && c ≤ 'Z')
    (if isAl then (if prevAl then c.toLower else c.toUpper) else c) :: titleGo cs isAl

/-- `milestone_name.replace('_', ' ').title()`, source line 255. -/
def eventName (ms : String) : String :=
  ⟨titleGo (ms.data.map fun c => if c = '_' then ' ' else c) false⟩

/-! ### `generate_report` (source lines 180–311), one definition per
contiguous block of `report_lines.append` calls. -/

/-- Source lines 196–200.  `now` stands for the
`datetime.now().strftime(...)` string, an input of the run. -/
def headerLines (logName now : String) : List String :=
  ["# Migration Phase Analysis Report", "",
   "**Log File:** `" ++ logName ++ "`",
   "**Generated:** " ++ now, ""]

/-- Source lines 202–214 (`if self.metrics:` is dict truthiness). -/
def summaryLines (m : Metrics) (durs : List (String × Int)) : List String :=
  if m.nonempty then
    ["## Summary", ""]
    ++ (match m.table_name with
        | some t => ["**Table:** `" ++ t ++ "`"] | none => [])
    ++ (match m.rows_read with
        | some n => ["**Total Records:** " ++ commaNat n] | none => [])
    ++ (match m.throughput with
        | some f => ["**Throughput:** " ++ fmtFC2 f ++ " rows/sec"] | none => [])
    ++ (match durs.lookup "total" with
        | some v => ["**Total Time:** " ++ fmtInt2 v ++ " seconds"] | none => [])
    ++ [""]
  else []

/-- Source line 219. -/
def phaseHeaderRow : String :=
  "| Spark Phase / Stage | Typical UI Indicator | Time Taken | Optimization | Notes / Impact |"

/-- Source line 220. -/
def phaseSepRow : String :=
  "| ------------------- | ------------------- | --------- | ------------ | -------------- |"

/-- Source lines 223–224. -/
def phase0Row (st : MState) (durs : List (String × Int)) : String :=
  let initTime : Int := if st.hasMile "spark_session" then (durs.lookup "init").getD 0 else 0
  "| **Phase 0 – Initialization** | Job 0, Stage 0 (pre-job) | **~" ++ fmtInt1 initTime
    ++ " seconds** | – | SparkSession creation, config loading, driver initialization, "
    ++ "YugabyteDB driver registration, checkpoint table setup. Minimal impact on migration time. |"

/-- Source lines 227–228. -/
def phase1Row (durs : List (String × Int)) : String :=
  let p : Int := (durs.lookup "planning").getD 0
  "| **Phase 1 – Planning / Token Range Calculation** | Stage 1 (implicit during DataFrame creation) | **~"
    ++ fmtInt1 p ++ " seconds** | Skip Row Count Estimation ✅ (Already implemented) | "
    ++ "Token range calculation, partition creation. Current: " ++ fmtInt1 p
    ++ " seconds. Optimized - no COUNT queries. |"

/-- Source lines 231–233: the displayed migration time, the milestone-pair
duration overridden by the `job_duration_seconds` metric when present. -/
def phase24TimeStr (m : Metrics) (durs : List (String × Int)) : String :=
  match m.job_duration_seconds with
  | some f => fmtF 1 f
  | none => fmtInt1 ((durs.lookup "migration").getD 0)

/-- Source line 234: `self.metrics.get('partition_count', 'N/A')`. -/
def partitionCellStr (m : Metrics) : String :=
  match m.partition_count with
  | some n => natStr n
  | none => "N/A"

/-- Source lines 231–235. -/
def phase24Row (m : Metrics) (durs : List (String × Int)) : String :=
  "| **Phase 2-4 – Read/Transform/COPY** | Stage 0 (ResultStage) - Task execution | **~"
    ++ phase24TimeStr m durs
    ++ " seconds** | Token-aware partitioning ✅, Direct COPY streaming ✅, Parallel execution ✅ | "
    ++ "Read from Cassandra, transform to CSV, COPY to YugabyteDB. " ++ partitionCellStr m
    ++ " partitions processed concurrently. |"

/-- Source lines 238–241 (`0.1` estimate when the duration is absent or 0;
`'{0.1:.1f}'` renders as `0.1`). -/
def phase5Row (durs : List (String × Int)) : String :=
  let v : Int := (durs.lookup "validation").getD 0
  let cell := if v = 0 then "0.1" else fmtInt1 v
  "| **Phase 5 – Validation / Post-Processing** | Post-Stage (after Job 0) | **<" ++ cell
    ++ " seconds** | Metrics-based validation ✅ (no COUNT queries) | "
    ++ "Row count validation using Spark Accumulators. Instant validation without database queries. |"

/-- Source lines 216–243: the Phase Breakdown Table. -/
def phaseLines (st : MState) (durs : List (String × Int)) : List String :=
  ["## Phase Breakdown Table", "", phaseHeaderRow, phaseSepRow,
   phase0Row st durs, phase1Row durs, phase24Row st.metrics durs, phase5Row durs, ""]

/-- Ordering of milestones by timestamp (the `key=lambda x: x[1]` sort key;
comparison of valid `datetime`s coincides with comparison of `toSecs`). -/
def tsLE (a b : String × DateTime) : Prop := toSecs a.2 ≤ toSecs b.2

instance : DecidableRel tsLE := fun _ _ => Nat.decLe _ _

instance : IsTotal (String × DateTime) tsLE := ⟨fun _ _ => Nat.le_total _ _⟩

instance : IsTrans (String × DateTime) tsLE := ⟨fun _ _ _ => Nat.le_trans⟩

/-- `sorted(self.milestones.items(), key=lambda x: x[1])`: Python's sort is
stable, and a stable sort is a unique function of the key order, so the
(stable) insertion sort models it exactly. -/
def sortMilestones (ms : List (String × DateTime)) : List (String × DateTime) :=
  List.insertionSort tsLE ms

/-- Source line 251: `milestones.get('spark_session') or milestones.get('app_submitted')`
(a `datetime` is always truthy). -/
def startTime (ms : List (String × DateTime)) : Option DateTime :=
  (ms.lookup "spark_session").orElse fun _ => ms.lookup "app_submitted"

/-- Source line 256: one row of the Detailed Timeline. -/
def timelineRow (t0 : DateTime) (p : String × DateTime) : String :=
  "| " ++ eventName p.1 ++ " | " ++ fmtHMS p.2 ++ " | " ++ fmtInt1 (diffSecs p.2 t0) ++ "s |"

/-- Source lines 251–256: the data rows (none when no start milestone). -/
def timelineRows (ms : List (String × DateTime)) : List String :=
  match startTime ms with
  | some t0 => (sortMilestones ms).map (timelineRow t0)
  | none => []

/-- Source lines 245–258: the Detailed Timeline section. -/
def timelineLines (ms : List (String × DateTime)) : List String :=
  ["## Detailed Timeline", "",
   "| Event | Timestamp | Duration from Start |",
   "|-------|-----------|---------------------|"]
  ++ timelineRows ms ++ [""]

/-- Source lines 260–272. -/
def perfLines (m : Metrics) (durs : List (String × Int)) : List String :=
  ["## Key Observations", "", "### Performance Metrics"]
  ++ (match m.rows_read, durs.lookup "total" with
      | some _, some v => ["- **Total Migration Time:** " ++ fmtInt2 v ++ " seconds"]
      | _, _ => [])
  ++ (match m.job_duration_seconds with
      | some f => ["- **Job 0 Execution Time:** " ++ fmtF 2 f ++ " seconds (actual data processing)"]
      | none => [])
  ++ (match durs.lookup "planning" with
      | some v => ["- **Planning Phase:** " ++ fmtInt2 v ++ " seconds"]
      | none => [])
  ++ (match m.throughput with
      | some f => ["- **Throughput:** " ++ fmtFC2 f ++ " rows/sec"]
      | none => [])
  ++ [""]

/-- Source lines 274–282. -/
def partDistLines (m : Metrics) : List String :=
  match m.partition_count with
  | some n =>
    ["### Partition Distribution",
     "- **Total Partitions:** " ++ natStr n ++ " (determined by Cassandra token ranges)"]
    ++ (match m.partitions_completed with
        | some c => ["- **Partitions Completed:** " ++ natStr c] | none => [])
    ++ (match m.partitions_failed with
        | some c => ["- **Partitions Failed:** " ++ natStr c] | none => [])
    ++ [""]
  | none => []

/-- Source lines 284–291. -/
def copyLines (st : MState) : List String :=
  match st.milestones.lookup "first_copy_completed", st.milestones.lookup "first_task_started" with
  | some b, some a =>
    ["### COPY Performance",
     "- **First COPY Stream:** Completed in ~" ++ fmtInt1 (diffSecs b a) ++ " seconds"]
    ++ (match st.metrics.first_copy_rows with
        | some r => ["- **First COPY Rows:** " ++ commaNat r ++ " rows"] | none => [])
    ++ [""]
  | _, _ => []

/-- Source lines 293–302.  In the guarded branch both keys are present, so
`metrics.get('rows_read', 0) == metrics.get('rows_written', -1)` is just
equality of the two counts. -/
def validationLines (m : Metrics) : List String :=
  match m.rows_read, m.rows_written with
  | some a, some b =>
    ["### Validation Results",
     "- **Rows Read:** " ++ commaNat a,
     "- **Rows Written:** " ++ commaNat b]
    ++ (match m.rows_skipped with
        | some s => ["- **Rows Skipped:** " ++ commaNat s] | none => [])
    ++ ["- **Validation:** " ++ (if a = b then "✅ PASSED" else "❌ FAILED"), ""]
  | _, _ => []

/-- `generate_report` (source lines 180–311) as the list of report lines
(the surrounding path handling and file write are I/O glue). -/
def generate_report (logName now : String) (st : MState) : List String :=
  let durs := calculate_durations st.milestones
  headerLines logName now ++ summaryLines st.metrics durs ++ phaseLines st durs
    ++ timelineLines st.milestones ++ perfLines st.metrics durs
    ++ partDistLines st.metrics ++ copyLines st ++ validationLines st.metrics

/-! ### Spec-side definitions for the timestamp round-trip property

`slashTS`/`dashTS` render the two timestamp formats named by the spec
(`yy/mm/dd HH:MM:SS` and `yyyy-mm-dd HH:MM:SS`); they are written from the
spec's format description, to be compared against the parser.
`containsValidTS` is the spec's reading of "the line contains a timestamp
in one of the two supported formats" (some position carries a well-formed
match with valid fields). -/

/-- Two decimal digits of `n < 100`. -/
def pad2c (n : Nat) : List Char := [Nat.digitChar (n / 10), Nat.digitChar (n % 10)]

/-- Four decimal digits of `n < 10000`. -/
def pad4c (n : Nat) : List Char :=
  [Nat.digitChar (n / 1000), Nat.digitChar (n / 100 % 10),
   Nat.digitChar (n / 10 % 10), Nat.digitChar (n % 10)]

/-- The slash format `yy/mm/dd HH:MM:SS`. -/
def slashTS (y2 m d h mi s : Nat) : List Char :=
  pad2c y2 ++ ('/' :: (pad2c m ++ ('/' :: (pad2c d ++
    (' ' :: (pad2c h ++ (':' :: (pad2c mi ++ (':' :: pad2c s)))))))))

/-- The hyphen format `yyyy-mm-dd HH:MM:SS`. -/
def dashTS (y m d h mi s : Nat) : List Char :=
  pad4c y ++ ('-' :: (pad2c m ++ ('-' :: (pad2c d ++
    (' ' :: (pad2c h ++ (':' :: (pad2c mi ++ (':' :: pad2c s)))))))))

/-- Some position of the line carries a well-formed timestamp match whose
fields are a valid calendar instant. -/
def containsValidTS : List Char → Bool
  | [] => false
  | c :: cs => ((tsAt (c :: cs)).bind mkDT).isSome || containsValidTS cs

/-! ## Association-list lemmas for the milestone dict -/

theorem lookup_cons {β : Type} (k k' : String) (v : β) (t : List (String × β)) :
    List.lookup k ((k', v) :: t) = if k = k' then some v else List.lookup k t := by
  by_cases h : k = k'
  · subst h
    rw [List.lookup, beq_self_eq_true]
    simp
  · rw [List.lookup, beq_eq_false_iff_ne.mpr h, if_neg h]

theorem lookup_append_of_some {β : Type} {k : String} {v : β} {l l2 : List (String × β)}
    (h : List.lookup k l = some v) : List.lookup k (l ++ l2) = some v := by
  induction l with
  | nil => cases h
  | cons a t ih =>
    rcases a with ⟨k', v'⟩
    rw [lookup_cons] at h
    rw [List.cons_append, lookup_cons]
    by_cases hk : k = k'
    · rwa [if_pos hk] at *
    · rw [if_neg hk] at *
      exact ih h

theorem lookup_append_single {β : Type} {k k' : String} {v : β} {l : List (String × β)}
    (h : List.lookup k l = none) :
    List.lookup k (l ++ [(k', v)]) = if k = k' then some v else none := by
  induction l with
  | nil =>
    rw [List.nil_append, lookup_cons]
    rfl
  | cons a t ih =>
    rcases a with ⟨k0, v0⟩
    rw [lookup_cons] at h
    rw [List.cons_append, lookup_cons]
    by_cases hk : k = k0
    · rw [if_pos hk] at h
      cases h
    · rw [if_neg hk] at *
      exact ih h

theorem lookup_eq_none_iff {β : Type} {k : String} {l : List (String × β)} :
    List.lookup k l = none ↔ k ∉ l.map Prod.fst := by
  induction l with
  | nil => simp
  | cons a t ih =>
    rcases a with ⟨k', v⟩
    rw [lookup_cons]
    by_cases hk : k = k'
    · simp [hk]
    · simp [hk, ih]

theorem hasMile_false_iff (st : MState) (k : String) :
    st.hasMile k = false ↔ st.milestones.lookup k = none := by
  unfold MState.hasMile
  cases st.milestones.lookup k <;> simp

/-! ## Structure of one step of the milestone chain -/

theorem withPartitionMetric_milestones (st : MState) (line : String) :
    (withPartitionMetric st line).milestones = st.milestones := by
  unfold withPartitionMetric
  cases findNumBefore "partitions".data line.data <;> rfl

theorem withCopyRowsMetric_milestones (st : MState) (line : String) :
    (withCopyRowsMetric st line).milestones = st.milestones := by
  unfold withCopyRowsMetric
  cases findLabelNat "Rows copied:".data line.data <;> rfl

theorem withJobDurMetric_milestones (st : MState) (line : String) :
    (withJobDurMetric st line).milestones = st.milestones := by
  unfold withJobDurMetric
  cases (findTook line.data).bind pyFloat <;> rfl

set_option maxHeartbeats 1000000 in
/-- Each step either leaves the milestone dict unchanged or appends exactly
one key whose pattern test holds of the current line and that was absent,
with the current event's timestamp. -/
theorem step_milestones_shape (st : MState) (e : Event) :
    (step st e).milestones = st.milestones ∨
      ∃ k, st.hasMile k = false ∧ trigger k e.text = true ∧
        (step st e).milestones = st.milestones ++ [(k, e.ts)] := by
  delta step
  by_cases h1 : (strHas e.text "Spark session created" && !st.hasMile "spark_session") = true
  · rw [if_pos h1]
    right
    refine ⟨"spark_session", ?_, ?_, rfl⟩
    · simp only [Bool.and_eq_true, Bool.not_eq_true'] at h1
      exact h1.2
    · simp only [trigger, String.reduceEq, reduceIte]
      simp only [Bool.and_eq_true, Bool.not_eq_true'] at h1
      exact h1.1
  · rw [if_neg h1]
    by_cases h2 : (strHas e.text "SparkContext: Submitted application" && !st.hasMile "app_submitted") = true
    · rw [if_pos h2]
      right
      refine ⟨"app_submitted", ?_, ?_, rfl⟩
      · simp only [Bool.and_eq_true, Bool.not_eq_true'] at h2
        exact h2.2
      · simp only [trigger, String.reduceEq, reduceIte]
        simp only [Bool.and_eq_true, Bool.not_eq_true'] at h2
        exact h2.1
    · rw [if_neg h2]
      by_cases h3 : (strHas e.text "Reading table:" && !st.hasMile "reading_table") = true
      · rw [if_pos h3]
        right
        refine ⟨"reading_table", ?_, ?_, rfl⟩
        · simp only [Bool.and_eq_true, Bool.not_eq_true'] at h3
          exact h3.2
        · simp only [trigger, String.reduceEq, reduceIte]
          simp only [Bool.and_eq_true, Bool.not_eq_true'] at h3
          exact h3.1
      · rw [if_neg h3]
        by_cases h4 : (strHas e.text "Successfully read table" && !st.hasMile "table_read") = true
        · rw [if_pos h4]
          right
          refine ⟨"table_read", ?_, ?_, rfl⟩
          · simp only [Bool.and_eq_true, Bool.not_eq_true'] at h4
            exact h4.2
          · simp only [trigger, String.reduceEq, reduceIte]
            simp only [Bool.and_eq_true, Bool.not_eq_true'] at h4
            exact h4.1
        · rw [if_neg h4]
          by_cases h5 : (strHas e.text "DataFrame has" && strHas e.text "partitions" && !st.hasMile "partitions_calculated") = true
          · rw [if_pos h5]
            right
            refine ⟨"partitions_calculated", ?_, ?_, ?_⟩
            · simp only [Bool.and_eq_true, Bool.not_eq_true'] at h5
              exact h5.2
            · simp only [trigger, String.reduceEq, reduceIte]
              simp only [Bool.and_eq_true, Bool.not_eq_true'] at h5
              rw [Bool.and_eq_true]
              exact h5.1
            · rw [withPartitionMetric_milestones]
              rfl
          · rw [if_neg h5]
            by_cases h6 : (strHas e.text "Starting migration for table" && !st.hasMile "migration_start") = true
            · rw [if_pos h6]
              right
              refine ⟨"migration_start", ?_, ?_, rfl⟩
              · simp only [Bool.and_eq_true, Bool.not_eq_true'] at h6
                exact h6.2
              · simp only [trigger, String.reduceEq, reduceIte]
                simp only [Bool.and_eq_true, Bool.not_eq_true'] at h6
                exact h6.1
            · rw [if_neg h6]
              by_cases h7 : (strHas e.text "Starting job: foreachPartition" || strHas e.text "Got job 0") = true
              · rw [if_pos h7]
                by_cases g7 : (!st.hasMile "job_started") = true
                · rw [if_pos g7]
                  right
                  refine ⟨"job_started", ?_, ?_, rfl⟩
                  · simpa using g7
                  · simp only [trigger, String.reduceEq, reduceIte]
                    exact h7
                · rw [if_neg g7]
                  left
                  rfl
              · rw [if_neg h7]
                by_cases h8 : (strHas e.text "Submitting.*missing tasks" || strHas e.text "Starting task 0.0") = true
                · rw [if_pos h8]
                  by_cases g8 : (!st.hasMile "first_task_started") = true
                  · rw [if_pos g8]
                    right
                    refine ⟨"first_task_started", ?_, ?_, rfl⟩
                    · simpa using g8
                    · simp only [trigger, String.reduceEq, reduceIte]
                      exact h8
                  · rw [if_neg g8]
                    left
                    rfl
                · rw [if_neg h8]
                  by_cases h9 : (strHas e.text "COPY operation completed" && !st.hasMile "first_copy_completed") = true
                  · rw [if_pos h9]
                    right
                    refine ⟨"first_copy_completed", ?_, ?_, ?_⟩
                    · simp only [Bool.and_eq_true, Bool.not_eq_true'] at h9
                      exact h9.2
                    · simp only [trigger, String.reduceEq, reduceIte]
                      simp only [Bool.and_eq_true, Bool.not_eq_true'] at h9
                      exact h9.1
                    · rw [withCopyRowsMetric_milestones]
                      rfl
                  · rw [if_neg h9]
                    by_cases h10 : (strHas e.text "Partition completed:" && !st.hasMile "first_partition_completed") = true
                    · rw [if_pos h10]
                      right
                      refine ⟨"first_partition_completed", ?_, ?_, rfl⟩
                      · simp only [Bool.and_eq_true, Bool.not_eq_true'] at h10
                        exact h10.2
                      · simp only [trigger, String.reduceEq, reduceIte]
                        simp only [Bool.and_eq_true, Bool.not_eq_true'] at h10
                        exact h10.1
                    · rw [if_neg h10]
                      by_cases h11 : (strHas e.text "Job 0 finished" || strHas e.text "ResultStage.*finished") = true
                      · rw [if_pos h11]
                        by_cases g11 : (!st.hasMile "job_finished") = true
                        · rw [if_pos g11]
                          right
                          refine ⟨"job_finished", ?_, ?_, ?_⟩
                          · simpa using g11
                          · simp only [trigger, String.reduceEq, reduceIte]
                            exact h11
                          · rw [withJobDurMetric_milestones]
                            rfl
                        · rw [if_neg g11]
                          left
                          rfl
                      · rw [if_neg h11]
                        by_cases h12 : (strHas e.text "Migration completed for table" && !st.hasMile "migration_complete") = true
                        · rw [if_pos h12]
                          right
                          refine ⟨"migration_complete", ?_, ?_, rfl⟩
                          · simp only [Bool.and_eq_true, Bool.not_eq_true'] at h12
                            exact h12.2
                          · simp only [trigger, String.reduceEq, reduceIte]
                            simp only [Bool.and_eq_true, Bool.not_eq_true'] at h12
                            exact h12.1
                        · rw [if_neg h12]
                          by_cases h13 : (strHas e.text "Running validation" && !st.hasMile "validation_start") = true
                          · rw [if_pos h13]
                            right
                            refine ⟨"validation_start", ?_, ?_, rfl⟩
                            · simp only [Bool.and_eq_true, Bool.not_eq_true'] at h13
                              exact h13.2
                            · simp only [trigger, String.reduceEq, reduceIte]
                              simp only [Bool.and_eq_true, Bool.not_eq_true'] at h13
                              exact h13.1
                          · rw [if_neg h13]
                            by_cases h14 : (strHas e.text "Row count validation passed" || strHas e.text "validation.*passed") = true
                            · rw [if_pos h14]
                              by_cases g14 : (!st.hasMile "validation_complete") = true
                              · rw [if_pos g14]
                                right
                                refine ⟨"validation_complete", ?_, ?_, rfl⟩
                                · simpa using g14
                                · simp only [trigger, String.reduceEq, reduceIte]
                                  exact h14
                              · rw [if_neg g14]
                                left
                                rfl
                            · rw [if_neg h14]
                              by_cases h15 : (strHas e.text "Migration Summary" && !st.hasMile "summary") = true
                              · rw [if_pos h15]
                                right
                                refine ⟨"summary", ?_, ?_, rfl⟩
                                · simp only [Bool.and_eq_true, Bool.not_eq_true'] at h15
                                  exact h15.2
                                · simp only [trigger, String.reduceEq, reduceIte]
                                  simp only [Bool.and_eq_true, Bool.not_eq_true'] at h15
                                  exact h15.1
                              · rw [if_neg h15]
                                left
                                rfl

theorem step_mono {st : MState} {e : Event} {k : String} {v : DateTime}
    (h : st.milestones.lookup k = some v) : (step st e).milestones.lookup k = some v := by
  rcases step_milestones_shape st e with hs | ⟨k', _, _, hs⟩ <;> rw [hs]
  · exact h
  · exact lookup_append_of_some h

theorem foldl_mono {l : List Event} {st : MState} {k : String} {v : DateTime}
    (h : st.milestones.lookup k = some v) :
    (l.foldl step st).milestones.lookup k = some v := by
  induction l generalizing st with
  | nil => exact h
  | cons e t ih => exact ih (step_mono h)

/-- When a step records a milestone that was absent, the recorded value is
the current event's timestamp. -/
theorem step_new {st : MState} {e : Event} {k : String} {v : DateTime}
    (h0 : st.milestones.lookup k = none)
    (h : (step st e).milestones.lookup k = some v) : v = e.ts := by
  rcases step_milestones_shape st e with hs | ⟨k', _, _, hs⟩ <;> rw [hs] at h
  · rw [h0] at h; cases h
  · rw [lookup_append_single h0] at h
    split at h
    · cases h; rfl
    · cases h

theorem step_keys_nodup {st : MState} {e : Event}
    (h : (st.milestones.map Prod.fst).Nodup) :
    ((step st e).milestones.map Prod.fst).Nodup := by
  rcases step_milestones_shape st e with hs | ⟨k, hk, _, hs⟩ <;> rw [hs]
  · exact h
  · rw [List.map_append]
    have hk' : k ∉ st.milestones.map Prod.fst :=
      lookup_eq_none_iff.mp ((hasMile_false_iff st k).mp hk)
    simp [List.nodup_append, h, hk']

theorem foldl_keys_nodup {l : List Event} {st : MState}
    (h : (st.milestones.map Prod.fst).Nodup) :
    ((l.foldl step st).milestones.map Prod.fst).Nodup := by
  induction l generalizing st with
  | nil => exact h
  | cons e t ih => exact ih (step_keys_nodup h)

/-- First-fire decomposition: a recorded milestone was recorded by the
first event at which its branch fired, with that event's timestamp, and
was never overwritten afterwards. -/
theorem fold_first_fire {l : List Event} {s : MState} {k : String} {v : DateTime}
    (h0 : s.milestones.lookup k = none)
    (h : ((l.foldl step s).milestones).lookup k = some v) :
    ∃ l1 e l2, l = l1 ++ e :: l2 ∧
      ((l1.foldl step s).milestones).lookup k = none ∧
      ((step (l1.foldl step s) e).milestones).lookup k = some e.ts ∧ v = e.ts := by
  induction l generalizing s with
  | nil => rw [List.foldl_nil, h0] at h; cases h
  | cons e t ih =>
    rw [List.foldl_cons] at h
    by_cases hc : (step s e).milestones.lookup k = none
    · obtain ⟨l1, e', l2, heq, ha, hb, hv⟩ := ih hc h
      exact ⟨e :: l1, e', l2, by simp [heq], by simpa using ha, by simpa using hb, hv⟩
    · obtain ⟨w, hw⟩ := Option.ne_none_iff_exists'.mp hc
      have hwts : w = e.ts := step_new h0 hw
      have hv : v = w := by
        have hm := foldl_mono (l := t) hw
        rw [hm] at h
        cases h; rfl
      exact ⟨[], e, t, rfl, h0, by simp [hw, hwts], by rw [hv, hwts]⟩

/-- A step can only record milestone `k` on a line whose pattern test for
`k` holds. -/
theorem step_new_trigger {st : MState} {e : Event} {k : String} {v : DateTime}
    (h0 : st.milestones.lookup k = none)
    (h : (step st e).milestones.lookup k = some v) : trigger k e.text = true := by
  rcases step_milestones_shape st e with hs | ⟨k', _, htr, hs⟩
  · rw [hs, h0] at h; cases h
  · rw [hs, lookup_append_single h0] at h
    split at h
    · rename_i heq
      rw [heq]
      exact htr
    · cases h

/-- A milestone recorded by the fold comes from some event whose line
passes the milestone's pattern test. -/
theorem fold_trigger {l : List Event} {s : MState} {k : String} {v : DateTime}
    (h0 : s.milestones.lookup k = none)
    (h : ((l.foldl step s).milestones).lookup k = some v) :
    ∃ e ∈ l, trigger k e.text = true := by
  obtain ⟨l1, e, l2, heq, ha, hb, _⟩ := fold_first_fire h0 h
  exact ⟨e, by simp [heq], step_new_trigger ha hb⟩

/-- The milestone dict of the analyzer state is the chain fold
(`_extract_metrics` touches only the metrics). -/
theorem analyzeState_milestones (lines : List String) :
    (analyzeState lines).milestones = ((parse_log lines).foldl step {}).milestones := rfl

/-! ## Lookup structure of the durations dict -/

theorem lookup_durEntry_self (k : String) (a b : Option DateTime) :
    List.lookup k (durEntry k a b) =
      match a, b with
      | some x, some y => some (diffSecs y x)
      | _, _ => none := by
  cases a <;> cases b <;> simp [durEntry, lookup_cons]

theorem lookup_durEntry_ne {k k' : String} (h : k' ≠ k) (a b : Option DateTime) :
    List.lookup k' (durEntry k a b) = none := by
  cases a <;> cases b <;> simp [durEntry, lookup_cons, h]

theorem lookup_append_or {β : Type} (k : String) (l1 l2 : List (String × β)) :
    List.lookup k (l1 ++ l2) = (List.lookup k l1).or (List.lookup k l2) := by
  induction l1 with
  | nil => simp
  | cons a t ih =>
    rcases a with ⟨k', v⟩
    rw [List.cons_append, lookup_cons, lookup_cons]
    by_cases hk : k = k'
    · simp [hk]
    · simp [hk, ih]

theorem lookup_migrationEntry_ne {k : String} (h : k ≠ "migration")
    (ms : List (String × DateTime)) : List.lookup k (migrationEntry ms) = none := by
  unfold migrationEntry
  rcases ms.lookup "job_started" with _ | a <;> rcases ms.lookup "job_finished" with _ | b <;>
    simp [lookup_cons, h, lookup_durEntry_ne h]

theorem lookup_migrationEntry_self (ms : List (String × DateTime)) :
    List.lookup "migration" (migrationEntry ms) =
      match ms.lookup "job_started", ms.lookup "job_finished" with
      | some a, some b => some (diffSecs b a)
      | _, _ =>
        match ms.lookup "first_task_started", ms.lookup "migration_complete" with
        | some a, some b => some (diffSecs b a)
        | _, _ => none := by
  unfold migrationEntry
  rcases ms.lookup "job_started" with _ | a <;> rcases ms.lookup "job_finished" with _ | b <;>
    simp [lookup_cons, lookup_durEntry_self]

/-! ## Claim theorems -/

/-- C2: each of the five named durations is present in
`calculate_durations` exactly when both milestones of its defining pair
are recorded (for `migration`, with the `first_task_started` /
`migration_complete` fallback pair used when `job_started`/`job_finished`
is unavailable), and when present it equals the difference of the two
milestone timestamps in seconds; when the endpoint pair is absent the key
is absent (not zero). -/
theorem c2_durations_characterization (ms : List (String × DateTime)) :
    (List.lookup "init" (calculate_durations ms) =
       match ms.lookup "spark_session", ms.lookup "partitions_calculated" with
       | some a, some b => some (diffSecs b a)
       | _, _ => none)
  ∧ (List.lookup "planning" (calculate_durations ms) =
       match ms.lookup "reading_table", ms.lookup "partitions_calculated" with
       | some a, some b => some (diffSecs b a)
       | _, _ => none)
  ∧ (List.lookup "migration" (calculate_durations ms) =
       match ms.lookup "job_started", ms.lookup "job_finished" with
       | some a, some b => some (diffSecs b a)
       | _, _ =>
         match ms.lookup "first_task_started", ms.lookup "migration_complete" with
         | some a, some b => some (diffSecs b a)
         | _, _ => none)
  ∧ (List.lookup "validation" (calculate_durations ms) =
       match ms.lookup "validation_start", ms.lookup "validation_complete" with
       | some a, some b => some (diffSecs b a)
       | _, _ => none)
  ∧ (List.lookup "total" (calculate_durations ms) =
       match ms.lookup "spark_session", ms.lookup "migration_complete" with
       | some a, some b => some (diffSecs b a)
       | _, _ => none) := by
  refine ⟨?_, ?_, ?_, ?_, ?_⟩
  · rw [calculate_durations]
    simp only [lookup_append_or]
    rw [lookup_durEntry_self,
        lookup_durEntry_ne (show ("init" : String) ≠ "planning" by decide),
        lookup_migrationEntry_ne (by decide),
        lookup_durEntry_ne (show ("init" : String) ≠ "validation" by decide),
        lookup_durEntry_ne (show ("init" : String) ≠ "total" by decide)]
    cases ms.lookup "spark_session" <;> cases ms.lookup "partitions_calculated" <;> rfl
  · rw [calculate_durations]
    simp only [lookup_append_or]
    rw [lookup_durEntry_ne (show ("planning" : String) ≠ "init" by decide),
        lookup_durEntry_self,
        lookup_migrationEntry_ne (by decide),
        lookup_durEntry_ne (show ("planning" : String) ≠ "validation" by decide),
        lookup_durEntry_ne (show ("planning" : String) ≠ "total" by decide)]
    cases ms.lookup "reading_table" <;> cases ms.lookup "partitions_calculated" <;> rfl
  · rw [calculate_durations]
    simp only [lookup_append_or]
    rw [lookup_durEntry_ne (show ("migration" : String) ≠ "init" by decide),
        lookup_durEntry_ne (show ("migration" : String) ≠ "planning" by decide),
        lookup_migrationEntry_self,
        lookup_durEntry_ne (show ("migration" : String) ≠ "validation" by decide),
        lookup_durEntry_ne (show ("migration" : String) ≠ "total" by decide)]
    cases ms.lookup "job_started" <;> cases ms.lookup "job_finished" <;>
      cases ms.lookup "first_task_started" <;> cases ms.lookup "migration_complete" <;> rfl
  · rw [calculate_durations]
    simp only [lookup_append_or]
    rw [lookup_durEntry_ne (show ("validation" : String) ≠ "init" by decide),
        lookup_durEntry_ne (show ("validation" : String) ≠ "planning" by decide),
        lookup_migrationEntry_ne (by decide),
        lookup_durEntry_self,
        lookup_durEntry_ne (show ("validation" : String) ≠ "total" by decide)]
    cases ms.lookup "validation_start" <;> cases ms.lookup "validation_complete" <;> rfl
  · rw [calculate_durations]
    simp only [lookup_append_or]
    rw [lookup_durEntry_ne (show ("total" : String) ≠ "init" by decide),
        lookup_durEntry_ne (show ("total" : String) ≠ "planning" by decide),
        lookup_migrationEntry_ne (by decide),
        lookup_durEntry_ne (show ("total" : String) ≠ "validation" by decide),
        lookup_durEntry_self]
    cases ms.lookup "spark_session" <;> cases ms.lookup "migration_complete" <;> rfl

/-- The two-line log used to exercise C1: its first line fires the
`spark_session` branch although it also contains the `reading_table`
pattern, so `reading_table` is recorded only at the second line. -/
def exLogC1 : List String :=
  ["2024-01-01 00:00:00 Spark session created Reading table: foo",
   "2024-01-01 00:00:05 Reading table: foo"]

/-- C1 (counterexample): a milestone's timestamp is not, in general, that
of the first line whose text matches the milestone's pattern: here the
first line matching the `reading_table` rule is at 00:00:00, but the
recorded timestamp is 00:00:05 (the first line is consumed by the earlier
`spark_session` branch of the if/elif chain). -/
theorem c1_counterexample :
    (analyzeState exLogC1).milestones.lookup "reading_table" =
        some ⟨2024, 1, 1, 0, 0, 5⟩
      ∧ ((parse_log exLogC1).filter fun e => trigger "reading_table" e.text).head? =
          some ⟨⟨2024, 1, 1, 0, 0, 0⟩, 1,
            "2024-01-01 00:00:00 Spark session created Reading table: foo"⟩
      ∧ (⟨2024, 1, 1, 0, 0, 5⟩ : DateTime) ≠ ⟨2024, 1, 1, 0, 0, 0⟩ := by
  refine ⟨by decide, by decide, by decide⟩

/-- C1 (amended): each milestone name is recorded at most once per run
(the milestone keys are duplicate-free), and when present its timestamp is
that of the first event at which that milestone's branch of the if/elif
chain fires with the milestone still unset — not merely the first line
matching the milestone's pattern, since a line can be consumed by an
earlier branch. -/
theorem c1_amended_first_fire (lines : List String) (name : String) (v : DateTime)
    (h : (analyzeState lines).milestones.lookup name = some v) :
    ((analyzeState lines).milestones.map Prod.fst).Nodup ∧
      ∃ l1 e l2, parse_log lines = l1 ++ e :: l2 ∧
        ((l1.foldl step {}).milestones).lookup name = none ∧
        ((step (l1.foldl step {}) e).milestones).lookup name = some e.ts ∧ v = e.ts := by
  rw [analyzeState_milestones] at h
  constructor
  · rw [analyzeState_milestones]
    exact foldl_keys_nodup (by simp)
  · exact fold_first_fire rfl h

/-- Witness for C1: the amended statement applied to the concrete log. -/
theorem c1_witness :
    ((analyzeState exLogC1).milestones.lookup "reading_table" =
        some ⟨2024, 1, 1, 0, 0, 5⟩)
    ∧ (((analyzeState exLogC1).milestones.map Prod.fst).Nodup ∧
        ∃ l1 e l2, parse_log exLogC1 = l1 ++ e :: l2 ∧
          ((l1.foldl step {}).milestones).lookup "reading_table" = none ∧
          ((step (l1.foldl step {}) e).milestones).lookup "reading_table" = some e.ts ∧
          (⟨2024, 1, 1, 0, 0, 5⟩ : DateTime) = e.ts) :=
  ⟨by decide, c1_amended_first_fire exLogC1 "reading_table" ⟨2024, 1, 1, 0, 0, 5⟩ (by decide)⟩

/-- C4: the three milestone rules whose pattern embeds a literal `.*`
(`first_task_started`, `job_finished`, `validation_complete`) fire only on
lines containing one of their trigger strings as a literal substring — the
`.*` is never a wildcard — and in particular the line
`Submitting 4 missing tasks` records no `first_task_started`. -/
theorem c4_literal_substring_only :
    (∀ lines v, (analyzeState lines).milestones.lookup "first_task_started" = some v →
        ∃ e ∈ parse_log lines,
          strHas e.text "Submitting.*missing tasks" = true
            ∨ strHas e.text "Starting task 0.0" = true)
  ∧ (∀ lines v, (analyzeState lines).milestones.lookup "job_finished" = some v →
        ∃ e ∈ parse_log lines,
          strHas e.text "Job 0 finished" = true
            ∨ strHas e.text "ResultStage.*finished" = true)
  ∧ (∀ lines v, (analyzeState lines).milestones.lookup "validation_complete" = some v →
        ∃ e ∈ parse_log lines,
          strHas e.text "Row count validation passed" = true
            ∨ strHas e.text "validation.*passed" = true)
  ∧ (analyzeState ["2024-01-01 00:00:00 Submitting 4 missing tasks"]).milestones.lookup
      "first_task_started" = none := by
  refine ⟨?_, ?_, ?_, by decide⟩
  all_goals
    intro lines v h
    rw [analyzeState_milestones] at h
    obtain ⟨e, he, htr⟩ := fold_trigger (by rfl) h
    refine ⟨e, he, ?_⟩
    simpa only [trigger, String.reduceEq, reduceIte, Bool.or_eq_true] using htr

/-- The log used by the C4 witness: it contains the characters `.*`
literally, so the `first_task_started` rule does fire. -/
def exLogC4 : List String := ["2024-01-01 00:00:01 xyz Submitting.*missing tasks now"]

/-- Witness for C4: the first conjunct applied to a concrete log. -/
theorem c4_witness :
    ((analyzeState exLogC4).milestones.lookup "first_task_started" =
        some ⟨2024, 1, 1, 0, 0, 1⟩)
    ∧ ∃ e ∈ parse_log exLogC4,
        strHas e.text "Submitting.*missing tasks" = true
          ∨ strHas e.text "Starting task 0.0" = true :=
  ⟨by decide, c4_literal_substring_only.1 exLogC4 ⟨2024, 1, 1, 0, 0, 1⟩ (by decide)⟩

/-- The two-line log of the spec's worked example. -/
def exLogC5 : List String :=
  ["2024-12-24 21:30:04 Spark session created",
   "2024-12-24 21:30:10 Migration completed for table foo"]

/-- C5: on the spec's example log the pipeline records
`spark_session = 21:30:04` and `migration_complete = 21:30:10`, and
`calculate_durations` yields `total` = 6 seconds. -/
theorem c5_example_run :
    (analyzeState exLogC5).milestones =
        [("spark_session", ⟨2024, 12, 24, 21, 30, 4⟩),
         ("migration_complete", ⟨2024, 12, 24, 21, 30, 10⟩)]
      ∧ List.lookup "total" (calculate_durations (analyzeState exLogC5).milestones) =
          some 6 :=
  ⟨by decide, by decide⟩

/-! ## Placement of the report sections inside `generate_report` -/

theorem timelineLines_infix (logName now : String) (st : MState) :
    timelineLines st.milestones <:+: generate_report logName now st := by
  refine ⟨headerLines logName now ++ summaryLines st.metrics (calculate_durations st.milestones)
      ++ phaseLines st (calculate_durations st.milestones),
    perfLines st.metrics (calculate_durations st.milestones) ++ partDistLines st.metrics
      ++ copyLines st ++ validationLines st.metrics, ?_⟩
  unfold generate_report
  simp [List.append_assoc]

theorem validationLines_suffix (logName now : String) (st : MState) :
    validationLines st.metrics <:+ generate_report logName now st := by
  refine ⟨headerLines logName now ++ summaryLines st.metrics (calculate_durations st.milestones)
      ++ phaseLines st (calculate_durations st.milestones) ++ timelineLines st.milestones
      ++ perfLines st.metrics (calculate_durations st.milestones) ++ partDistLines st.metrics
      ++ copyLines st, ?_⟩
  unfold generate_report
  simp [List.append_assoc]

/-- C9 (counterexample): a log with zero recognisable timestamps on which
the program does NOT complete: its only line matches the throughput regex
with group `.`, `float('.')` raises `ValueError` inside
`_extract_metrics`, and the run exits with no report. -/
theorem c9_counterexample :
    (∀ l ∈ ["Throughput: . rows/sec"], findTS l.data = none)
      ∧ analyzeRaises ["Throughput: . rows/sec"] = true :=
  ⟨by decide, by decide⟩

/-- C9 (amended): on an input with no recognisable timestamp on any line,
provided the metric extraction's `float(...)` call does not raise (no
matched `[\d.]+` throughput group is unconvertible), the run raises
nowhere — with no events, the loop of `identify_milestones` never runs,
so its `float(...)` site is unreachable and every other stage is total —
and the rendered Detailed Timeline section is exactly its header lines,
placed inside the report, with no data rows.  When such a group does
occur, the run aborts and no report is produced. -/
theorem c9_no_timestamps_empty_timeline (lines : List String)
    (h : ∀ l ∈ lines, findTS l.data = none)
    (hok : extractMetricsRaises (contentOf lines) = false) :
    analyzeRaises lines = false ∧
      parse_log lines = [] ∧
      timelineLines (analyzeState lines).milestones =
        ["## Detailed Timeline", "",
         "| Event | Timestamp | Duration from Start |",
         "|-------|-----------|---------------------|", ""] ∧
      ∀ logName now, timelineLines (analyzeState lines).milestones <:+:
        generate_report logName now (analyzeState lines) := by
  have hp : ∀ (ls : List String), (∀ l ∈ ls, findTS l.data = none) →
      ∀ n, parse_log_from n ls = [] := by
    intro ls
    induction ls with
    | nil => intro _ _; rfl
    | cons l t ih =>
      intro hls n
      rw [parse_log_from]
      have hl : parseLine l = none := by
        unfold parseLine
        rw [hls l (by simp)]
        rfl
      rw [hl]
      exact ih (fun x hx => hls x (by simp [hx])) (n + 1)
  have hpl : parse_log lines = [] := hp lines h 1
  have hm : (analyzeState lines).milestones = [] := by
    rw [analyzeState_milestones, parse_log, hp lines h 1]
    rfl
  have hnr : analyzeRaises lines = false := by
    rw [analyzeRaises, hpl]
    rw [show foldTookRaises [] {} = false from rfl, hok]
    rfl
  refine ⟨hnr, hpl, ?_, fun logName now => timelineLines_infix logName now _⟩
  rw [hm]
  rfl

/-- Witness for C9: a concrete log with no timestamps and a harmless
metric scan. -/
theorem c9_witness :
    (∀ l ∈ ["no timestamps here", "Rows Read: 5"], findTS l.data = none)
    ∧ extractMetricsRaises (contentOf ["no timestamps here", "Rows Read: 5"]) = false
    ∧ (analyzeRaises ["no timestamps here", "Rows Read: 5"] = false ∧
        parse_log ["no timestamps here", "Rows Read: 5"] = [] ∧
        timelineLines (analyzeState ["no timestamps here", "Rows Read: 5"]).milestones =
          ["## Detailed Timeline", "",
           "| Event | Timestamp | Duration from Start |",
           "|-------|-----------|---------------------|", ""] ∧
        ∀ logName now,
          timelineLines (analyzeState ["no timestamps here", "Rows Read: 5"]).milestones <:+:
            generate_report logName now
              (analyzeState ["no timestamps here", "Rows Read: 5"])) :=
  ⟨by decide, by decide,
   c9_no_timestamps_empty_timeline ["no timestamps here", "Rows Read: 5"]
     (by decide) (by decide)⟩

/-! ## Round-trip lemmas for the timestamp scanner (C3) -/

theorem isDig_digitChar {x : Nat} (h : x < 10) : isDig (Nat.digitChar x) = true := by
  interval_cases x <;> decide

theorem digVal_digitChar {x : Nat} (h : x < 10) : digVal (Nat.digitChar x) = x := by
  interval_cases x <;> decide

theorem isSpc_digitChar {x : Nat} (h : x < 10) : isSpc (Nat.digitChar x) = false := by
  interval_cases x <;> decide

theorem digitChar_ne_slash {x : Nat} (h : x < 10) : ¬(Nat.digitChar x = '/') := by
  interval_cases x <;> decide

theorem daysInMonth_le (y m : Nat) : daysInMonth y m ≤ 31 := by
  unfold daysInMonth
  split_ifs <;> omega

theorem matchDigits_two (a b : Nat) (ha : a < 10) (hb : b < 10) (rest : List Char) :
    matchDigits 2 (Nat.digitChar a :: Nat.digitChar b :: rest) = some (10 * a + b, rest) := by
  simp [matchDigits, isDig_digitChar ha, isDig_digitChar hb, natOfDigits,
        digVal_digitChar ha, digVal_digitChar hb]

theorem matchDigits_four (a b c d : Nat) (ha : a < 10) (hb : b < 10) (hc : c < 10)
    (hd : d < 10) (rest : List Char) :
    matchDigits 4
        (Nat.digitChar a :: Nat.digitChar b :: Nat.digitChar c :: Nat.digitChar d :: rest) =
      some (10 * (10 * (10 * a + b) + c) + d, rest) := by
  simp [matchDigits, isDig_digitChar, ha, hb, hc, hd, natOfDigits, digVal_digitChar]

theorem matchDigits_pad2 {n : Nat} (h : n ≤ 99) (rest : List Char) :
    matchDigits 2 (pad2c n ++ rest) = some (n, rest) := by
  have h2 := matchDigits_two (n / 10) (n % 10) (by omega) (by omega) rest
  rw [pad2c, List.cons_append, List.cons_append, List.nil_append]
  rw [h2]
  congr 2
  omega

theorem matchDigits_pad4 {n : Nat} (h : n ≤ 9999) (rest : List Char) :
    matchDigits 4 (pad4c n ++ rest) = some (n, rest) := by
  have h4 := matchDigits_four (n / 1000) (n / 100 % 10) (n / 10 % 10) (n % 10)
    (by omega) (by omega) (by omega) (by omega) rest
  rw [pad4c]
  simp only [List.cons_append, List.nil_append]
  rw [h4]
  congr 2
  omega

theorem matchCh_cons (c : Char) (rest : List Char) : matchCh c (c :: rest) = some rest := by
  simp [matchCh]

theorem dateAlt1_slash {y2 m d : Nat} (hy : y2 ≤ 99) (hm : m ≤ 99) (hd : d ≤ 99)
    (rest : List Char) :
    dateAlt1 (pad2c y2 ++ ('/' :: (pad2c m ++ ('/' :: (pad2c d ++ rest))))) =
      some (y2, m, d, rest) := by
  simp only [dateAlt1, matchDigits_pad2 hy, matchCh_cons, matchDigits_pad2 hm,
    matchDigits_pad2 hd]

theorem timeAt_pads {h mi s : Nat} (hh : h ≤ 99) (hmi : mi ≤ 99) (hs : s ≤ 99)
    (rest : List Char) :
    timeAt (pad2c h ++ (':' :: (pad2c mi ++ (':' :: (pad2c s ++ rest))))) =
      some (h, mi, s) := by
  simp only [timeAt, matchDigits_pad2 hh, matchCh_cons, matchDigits_pad2 hmi,
    matchDigits_pad2 hs]

theorem tsAt_slash {y2 m d h mi s : Nat} (hy : y2 ≤ 99) (hm : m ≤ 99) (hd : d ≤ 99)
    (hh : h ≤ 99) (hmi : mi ≤ 99) (hs : s ≤ 99) (post : List Char) :
    tsAt (slashTS y2 m d h mi s ++ post) = some ⟨true, y2, m, d, h, mi, s⟩ := by
  have hassoc : slashTS y2 m d h mi s ++ post =
      pad2c y2 ++ ('/' :: (pad2c m ++ ('/' :: (pad2c d ++
        (' ' :: (pad2c h ++ (':' :: (pad2c mi ++ (':' :: (pad2c s ++ post)))))))))) := by
    simp [slashTS, List.append_assoc]
  rw [hassoc]
  simp only [tsAt, dateAt, dateAlt1_slash hy hm hd]
  have hspc : isSpc ' ' = true := by decide
  have hdig : isSpc (Nat.digitChar (h / 10)) = false := isSpc_digitChar (by omega)
  have hsp : List.takeWhile isSpc
      (' ' :: (pad2c h ++ (':' :: (pad2c mi ++ (':' :: (pad2c s ++ post)))))) = [' '] := by
    rw [List.takeWhile_cons, if_pos hspc, pad2c, List.cons_append, List.takeWhile_cons,
        if_neg (by rw [hdig]; exact Bool.false_ne_true)]
  have hdr : List.dropWhile isSpc
      (' ' :: (pad2c h ++ (':' :: (pad2c mi ++ (':' :: (pad2c s ++ post)))))) =
      pad2c h ++ (':' :: (pad2c mi ++ (':' :: (pad2c s ++ post)))) := by
    rw [List.dropWhile_cons, if_pos hspc]
    conv_lhs => rw [pad2c, List.cons_append, List.dropWhile_cons,
      if_neg (by rw [hdig]; exact Bool.false_ne_true)]
    simp [pad2c]
  simp only [hsp, hdr, timeAt_pads hh hmi hs, List.isEmpty_cons, Bool.false_eq_true,
    if_false]

theorem tsAt_dash {y m d h mi s : Nat} (hy : y ≤ 9999) (hm : m ≤ 99) (hd : d ≤ 99)
    (hh : h ≤ 99) (hmi : mi ≤ 99) (hs : s ≤ 99) (post : List Char) :
    tsAt (dashTS y m d h mi s ++ post) = some ⟨false, y, m, d, h, mi, s⟩ := by
  have hassoc : dashTS y m d h mi s ++ post =
      pad4c y ++ ('-' :: (pad2c m ++ ('-' :: (pad2c d ++
        (' ' :: (pad2c h ++ (':' :: (pad2c mi ++ (':' :: (pad2c s ++ post)))))))))) := by
    simp [dashTS, List.append_assoc]
  have halt1 : dateAlt1 (pad4c y ++ ('-' :: (pad2c m ++ ('-' :: (pad2c d ++
      (' ' :: (pad2c h ++ (':' :: (pad2c mi ++ (':' :: (pad2c s ++ post)))))))))) ) = none := by
    rw [pad4c]
    simp only [List.cons_append, List.nil_append]
    simp only [dateAlt1, matchDigits_two (y / 1000) (y / 100 % 10) (by omega) (by omega),
      matchCh, if_neg (digitChar_ne_slash (show y / 10 % 10 < 10 by omega))]
  rw [hassoc]
  simp only [tsAt, dateAt, dateAlt2, halt1, matchDigits_pad4 hy, matchCh_cons,
    matchDigits_pad2 hm, matchDigits_pad2 hd]
  have hspc : isSpc ' ' = true := by decide
  have hdig : isSpc (Nat.digitChar (h / 10)) = false := isSpc_digitChar (by omega)
  have hsp : List.takeWhile isSpc
      (' ' :: (pad2c h ++ (':' :: (pad2c mi ++ (':' :: (pad2c s ++ post)))))) = [' '] := by
    rw [List.takeWhile_cons, if_pos hspc, pad2c, List.cons_append, List.takeWhile_cons,
        if_neg (by rw [hdig]; exact Bool.false_ne_true)]
  have hdr : List.dropWhile isSpc
      (' ' :: (pad2c h ++ (':' :: (pad2c mi ++ (':' :: (pad2c s ++ post)))))) =
      pad2c h ++ (':' :: (pad2c mi ++ (':' :: (pad2c s ++ post)))) := by
    rw [List.dropWhile_cons, if_pos hspc]
    conv_lhs => rw [pad2c, List.cons_append, List.dropWhile_cons,
      if_neg (by rw [hdig]; exact Bool.false_ne_true)]
    simp [pad2c]
  simp only [hsp, hdr, timeAt_pads hh hmi hs, List.isEmpty_cons, Bool.false_eq_true,
    if_false]

theorem findTS_of_tsAt {cs : List Char} {r : RawTS} (h : tsAt cs = some r) :
    findTS cs = some r := by
  cases cs with
  | nil =>
    have : tsAt ([] : List Char) = none := by decide
    rw [this] at h
    cases h
  | cons c cs => rw [findTS, h]

/-- The line used by the C3 counterexample: the leftmost regex match
(`99/99/99 00:00:00`) is invalid, so the line is skipped although a valid
hyphen-format timestamp occurs later in the line. -/
def exLineC3 : String := "99/99/99 00:00:00 x 2024-01-02 03:04:05 ok"

/-- C3 (counterexample): a line that contains a valid timestamp in a
supported format for which `parse_log` nevertheless records no event — the
leftmost regex match governs, and here it is an invalid date. -/
theorem c3_counterexample :
    containsValidTS exLineC3.data = true ∧ parse_log [exLineC3] = [] :=
  ⟨by decide, by decide⟩

/-- C3 (amended): `parse_log` considers only the leftmost regex match of a
line.  When that match is a valid instant the recorded event's timestamp
is exactly the calendar instant encoded by the matched text — for the
two-digit-year form under the `%y` pivot (00–68 → 2000s, 69–99 → 1900s) —
for any trailing text; when the leftmost match is invalid, or there is no
match, the line is skipped silently. -/
theorem c3_leftmost_roundtrip :
    (∀ y2 m d h mi s : Nat, ∀ post : String,
        y2 ≤ 99 → 1 ≤ m → m ≤ 12 → 1 ≤ d → d ≤ daysInMonth (pivotY y2) m →
        h ≤ 23 → mi ≤ 59 → s ≤ 59 →
        parseLine ⟨slashTS y2 m d h mi s ++ post.data⟩ =
          some ⟨pivotY y2, m, d, h, mi, s⟩)
  ∧ (∀ y m d h mi s : Nat, ∀ post : String,
        1 ≤ y → y ≤ 9999 → 1 ≤ m → m ≤ 12 → 1 ≤ d → d ≤ daysInMonth y m →
        h ≤ 23 → mi ≤ 59 → s ≤ 59 →
        parseLine ⟨dashTS y m d h mi s ++ post.data⟩ = some ⟨y, m, d, h, mi, s⟩)
  ∧ (∀ line : String, (findTS line.data).bind mkDT = none → parse_log [line] = []) := by
  refine ⟨?_, ?_, ?_⟩
  · intro y2 m d h mi s post hy hm1 hm2 hd1 hd2 hh hmi hs
    unfold parseLine
    rw [show (⟨slashTS y2 m d h mi s ++ post.data⟩ : String).data =
          slashTS y2 m d h mi s ++ post.data from rfl]
    have h31 := daysInMonth_le (pivotY y2) m
    rw [findTS_of_tsAt (tsAt_slash hy (by omega) (by omega) (by omega) (by omega)
          (by omega) post.data)]
    have hy1 : 1 ≤ pivotY y2 := by
      unfold pivotY
      split <;> omega
    rw [show ((some (⟨true, y2, m, d, h, mi, s⟩ : RawTS)).bind mkDT) =
          mkDT ⟨true, y2, m, d, h, mi, s⟩ from rfl]
    simp [mkDT, hy1, hm1, hm2, hd1, hd2, hh, hmi, hs]
  · intro y m d h mi s post hy1 hy2 hm1 hm2 hd1 hd2 hh hmi hs
    unfold parseLine
    rw [show (⟨dashTS y m d h mi s ++ post.data⟩ : String).data =
          dashTS y m d h mi s ++ post.data from rfl]
    have h31 := daysInMonth_le y m
    rw [findTS_of_tsAt (tsAt_dash hy2 (by omega) (by omega) (by omega) (by omega)
          (by omega) post.data)]
    rw [show ((some (⟨false, y, m, d, h, mi, s⟩ : RawTS)).bind mkDT) =
          mkDT ⟨false, y, m, d, h, mi, s⟩ from rfl]
    simp [mkDT, hy1, hm1, hm2, hd1, hd2, hh, hmi, hs]
  · intro line h
    rw [parse_log, parse_log_from, parseLine, h]
    rfl

/-- Witness for C3: the round-trip and the silent skip at concrete inputs. -/
theorem c3_witness :
    ((25 : Nat) ≤ 99 ∧ 1 ≤ 12 ∧ (12 : Nat) ≤ 12 ∧ 1 ≤ 24 ∧
        (24 : Nat) ≤ daysInMonth (pivotY 25) 12 ∧ (21 : Nat) ≤ 23 ∧ (30 : Nat) ≤ 59 ∧
        (4 : Nat) ≤ 59)
    ∧ parseLine ⟨slashTS 25 12 24 21 30 4 ++ " foo".data⟩ =
        some ⟨pivotY 25, 12, 24, 21, 30, 4⟩
    ∧ parse_log ["99/99/99 10:00:00 bad"] = [] :=
  ⟨by decide,
   c3_leftmost_roundtrip.1 25 12 24 21 30 4 " foo" (by decide) (by decide) (by decide)
     (by decide) (by decide) (by decide) (by decide) (by decide),
   c3_leftmost_roundtrip.2.2 "99/99/99 10:00:00 bad" (by decide)⟩

/-! ## String-shape lemmas for the report sections -/

theorem litAt_append {p : List Char} (r : List Char) :
    ∀ {q : List Char}, litAt p q = true → litAt p (q ++ r) = true := by
  induction p with
  | nil => intro q _; rfl
  | cons a ps ih =>
    intro q h
    cases q with
    | nil => cases h
    | cons b qs =>
      rw [List.cons_append, litAt]
      rw [litAt, Bool.and_eq_true] at h
      rw [Bool.and_eq_true]
      exact ⟨h.1, ih h.2⟩

theorem litAt_str_append {p : List Char} {a : String} (h : litAt p a.data = true)
    (b : String) : litAt p (a ++ b).data = true := by
  rw [String.data_append]
  exact litAt_append _ h

/-- A string starting with a fixed head cannot equal a string whose first
characters differ from that head, whatever its tail. -/
theorem ne_of_lit_head {a b : String} (s : String)
    (h : a.data ≠ b.data.take a.data.length) : a ++ s ≠ b := by
  intro he
  apply h
  have hd : (a ++ s).data = b.data := congrArg String.data he
  rw [String.data_append] at hd
  rw [← hd, List.take_left]

/-- C6: whenever both `rows_read` and `rows_written` were extracted, the
rendered report ends with a Validation Results section, and that section
shows `✅ PASSED` exactly when the two counts are equal and `❌ FAILED`
exactly otherwise. -/
theorem c6_validation_passed_iff (st : MState) (a b : Nat)
    (ha : st.metrics.rows_read = some a) (hb : st.metrics.rows_written = some b) :
    (∀ logName now, validationLines st.metrics <:+ generate_report logName now st)
  ∧ "### Validation Results" ∈ validationLines st.metrics
  ∧ (("- **Validation:** ✅ PASSED" ∈ validationLines st.metrics) ↔ a = b)
  ∧ (("- **Validation:** ❌ FAILED" ∈ validationLines st.metrics) ↔ ¬(a = b)) := by
  have n1 : ∀ x : String, ("- **Rows Read:** " ++ x) ≠ "- **Validation:** ✅ PASSED" :=
    fun x => ne_of_lit_head x (by decide)
  have n2 : ∀ x : String, ("- **Rows Written:** " ++ x) ≠ "- **Validation:** ✅ PASSED" :=
    fun x => ne_of_lit_head x (by decide)
  have n3 : ∀ x : String, ("- **Rows Skipped:** " ++ x) ≠ "- **Validation:** ✅ PASSED" :=
    fun x => ne_of_lit_head x (by decide)
  have m1 : ∀ x : String, ("- **Rows Read:** " ++ x) ≠ "- **Validation:** ❌ FAILED" :=
    fun x => ne_of_lit_head x (by decide)
  have m2 : ∀ x : String, ("- **Rows Written:** " ++ x) ≠ "- **Validation:** ❌ FAILED" :=
    fun x => ne_of_lit_head x (by decide)
  have m3 : ∀ x : String, ("- **Rows Skipped:** " ++ x) ≠ "- **Validation:** ❌ FAILED" :=
    fun x => ne_of_lit_head x (by decide)
  have hv : validationLines st.metrics =
      ["### Validation Results",
       "- **Rows Read:** " ++ commaNat a,
       "- **Rows Written:** " ++ commaNat b]
      ++ (match st.metrics.rows_skipped with
          | some sk => ["- **Rows Skipped:** " ++ commaNat sk]
          | none => [])
      ++ ["- **Validation:** " ++ (if a = b then "✅ PASSED" else "❌ FAILED"), ""] := by
    rw [validationLines, ha, hb]
  refine ⟨fun logName now => validationLines_suffix logName now st, ?_, ?_, ?_⟩
  · rw [hv]
    simp
  · rw [hv]
    rcases st.metrics.rows_skipped with _ | sk
    · by_cases hab : a = b
      · simp [hab]
      · simp [hab, Ne.symm (n1 (commaNat a)), Ne.symm (n1 (commaNat b)),
          Ne.symm (n2 (commaNat a)), Ne.symm (n2 (commaNat b))]
    · by_cases hab : a = b
      · simp [hab]
      · simp [hab, Ne.symm (n1 (commaNat a)), Ne.symm (n1 (commaNat b)),
          Ne.symm (n2 (commaNat a)), Ne.symm (n2 (commaNat b)), Ne.symm (n3 (commaNat sk))]
  · rw [hv]
    rcases st.metrics.rows_skipped with _ | sk
    · by_cases hab : a = b
      · simp [hab, Ne.symm (m1 (commaNat a)), Ne.symm (m1 (commaNat b)),
          Ne.symm (m2 (commaNat a)), Ne.symm (m2 (commaNat b))]
      · simp [hab]
    · by_cases hab : a = b
      · simp [hab, Ne.symm (m1 (commaNat a)), Ne.symm (m1 (commaNat b)),
          Ne.symm (m2 (commaNat a)), Ne.symm (m2 (commaNat b)), Ne.symm (m3 (commaNat sk))]
      · simp [hab]

/-- The log used by the C6 witness. -/
def exLogC6 : List String := ["Rows Read: 1000", "Rows Written: 1000"]

/-- Witness for C6: a concrete run with equal row counts. -/
theorem c6_witness :
    ((analyzeState exLogC6).metrics.rows_read = some 1000)
    ∧ ((analyzeState exLogC6).metrics.rows_written = some 1000)
    ∧ ((∀ logName now, validationLines (analyzeState exLogC6).metrics <:+
          generate_report logName now (analyzeState exLogC6))
      ∧ "### Validation Results" ∈ validationLines (analyzeState exLogC6).metrics
      ∧ (("- **Validation:** ✅ PASSED" ∈ validationLines (analyzeState exLogC6).metrics) ↔
          (1000 : Nat) = 1000)
      ∧ (("- **Validation:** ❌ FAILED" ∈ validationLines (analyzeState exLogC6).metrics) ↔
          ¬((1000 : Nat) = 1000))) :=
  ⟨by decide, by decide,
   c6_validation_passed_iff (analyzeState exLogC6) 1000 1000 (by decide) (by decide)⟩

/-- The one-line log of the C7 counterexample. -/
def exLogC7 : List String := ["2024-12-24 21:30:10 Migration completed for table foo"]

/-- C7 (counterexample): with a recorded milestone but neither
`spark_session` nor `app_submitted` present, the Detailed Timeline renders
no data rows at all, so it does not list all recorded milestones. -/
theorem c7_counterexample :
    (analyzeState exLogC7).milestones =
        [("migration_complete", ⟨2024, 12, 24, 21, 30, 10⟩)]
      ∧ timelineRows (analyzeState exLogC7).milestones = []
      ∧ timelineLines (analyzeState exLogC7).milestones =
          ["## Detailed Timeline", "",
           "| Event | Timestamp | Duration from Start |",
           "|-------|-----------|---------------------|", ""] :=
  ⟨by decide, by decide, by decide⟩

/-- C7 (amended): when a start milestone is available (`spark_session`,
else `app_submitted`), the Detailed Timeline lists all recorded milestones
in stable timestamp order, each row rendered with its offset from the
start milestone; the section sits inside the rendered report.  With no
start milestone the table renders no rows. -/
theorem c7_timeline_sorted (ms : List (String × DateTime)) (t0 : DateTime)
    (h : startTime ms = some t0) :
    (∃ sorted_ms, List.Perm sorted_ms ms ∧ List.Sorted tsLE sorted_ms ∧
        timelineRows ms = sorted_ms.map (timelineRow t0))
    ∧ ∀ logName now (st : MState), st.milestones = ms →
        timelineLines ms <:+: generate_report logName now st := by
  constructor
  · refine ⟨sortMilestones ms, List.perm_insertionSort _ _,
      List.sorted_insertionSort _ _, ?_⟩
    rw [timelineRows, h]
  · intro logName now st hst
    rw [← hst]
    exact timelineLines_infix logName now st

/-- The log used by the C7 witness. -/
def exLogC7w : List String :=
  ["2024-12-24 21:30:04 Spark session created",
   "2024-12-24 21:30:10 Migration completed for table foo"]

/-- Witness for C7: the amended statement at a concrete run. -/
theorem c7_witness :
    (startTime (analyzeState exLogC7w).milestones = some ⟨2024, 12, 24, 21, 30, 4⟩)
    ∧ ((∃ sorted_ms, List.Perm sorted_ms (analyzeState exLogC7w).milestones ∧
          List.Sorted tsLE sorted_ms ∧
          timelineRows (analyzeState exLogC7w).milestones =
            sorted_ms.map (timelineRow ⟨2024, 12, 24, 21, 30, 4⟩))
      ∧ ∀ logName now (st : MState), st.milestones = (analyzeState exLogC7w).milestones →
          timelineLines (analyzeState exLogC7w).milestones <:+:
            generate_report logName now st) :=
  ⟨by decide,
   c7_timeline_sorted (analyzeState exLogC7w).milestones ⟨2024, 12, 24, 21, 30, 4⟩ (by decide)⟩

/-- C8 (counterexample): on a concrete run the Phase Breakdown Table has
exactly four data rows (phases 0, 1, 2-4, 5), not five. -/
theorem c8_counterexample :
    (((phaseLines (analyzeState [])
          (calculate_durations (analyzeState []).milestones)).filter
        fun l => litAt "| **Phase".data l.data).length = 4)
    ∧ ¬(((phaseLines (analyzeState [])
          (calculate_durations (analyzeState []).milestones)).filter
        fun l => litAt "| **Phase".data l.data).length = 5) :=
  ⟨by decide, by decide⟩

set_option maxRecDepth 4000 in
/-- C8 (amended): for every run the rendered Phase Breakdown Table
consists of its two header lines, the table head and rule, exactly FOUR
fixed data rows (phases 0, 1, 2-4 and 5) and a blank line; each row's
numbers are drawn from the metrics/duration maps with literal textual
fallbacks when a value is absent (`0.0` for a missing duration, `N/A` for
a missing partition count, `0.1` for a missing validation time). -/
theorem c8_phase_table_rows (st : MState) (durs : List (String × Int)) :
    ((phaseLines st durs).length = 9)
  ∧ (((phaseLines st durs).filter fun l => litAt "| **Phase".data l.data).length = 4)
  ∧ (st.hasMile "spark_session" = false →
      phase0Row st durs =
        "| **Phase 0 – Initialization** | Job 0, Stage 0 (pre-job) | **~0.0 seconds** | – | SparkSession creation, config loading, driver initialization, YugabyteDB driver registration, checkpoint table setup. Minimal impact on migration time. |")
  ∧ (durs.lookup "planning" = none →
      phase1Row durs =
        "| **Phase 1 – Planning / Token Range Calculation** | Stage 1 (implicit during DataFrame creation) | **~0.0 seconds** | Skip Row Count Estimation ✅ (Already implemented) | Token range calculation, partition creation. Current: 0.0 seconds. Optimized - no COUNT queries. |")
  ∧ (st.metrics.job_duration_seconds = none → durs.lookup "migration" = none →
      st.metrics.partition_count = none →
      phase24Row st.metrics durs =
        "| **Phase 2-4 – Read/Transform/COPY** | Stage 0 (ResultStage) - Task execution | **~0.0 seconds** | Token-aware partitioning ✅, Direct COPY streaming ✅, Parallel execution ✅ | Read from Cassandra, transform to CSV, COPY to YugabyteDB. N/A partitions processed concurrently. |")
  ∧ (durs.lookup "validation" = none →
      phase5Row durs =
        "| **Phase 5 – Validation / Post-Processing** | Post-Stage (after Job 0) | **<0.1 seconds** | Metrics-based validation ✅ (no COUNT queries) | Row count validation using Spark Accumulators. Instant validation without database queries. |") := by
  have t0 : litAt "| **Phase".data (phase0Row st durs).data = true := by
    simp only [phase0Row]
    apply litAt_str_append
    apply litAt_str_append
    apply litAt_str_append
    decide
  have t1 : litAt "| **Phase".data (phase1Row durs).data = true := by
    simp only [phase1Row]
    apply litAt_str_append
    apply litAt_str_append
    apply litAt_str_append
    apply litAt_str_append
    apply litAt_str_append
    decide
  have t24 : litAt "| **Phase".data (phase24Row st.metrics durs).data = true := by
    simp only [phase24Row]
    apply litAt_str_append
    apply litAt_str_append
    apply litAt_str_append
    apply litAt_str_append
    apply litAt_str_append
    decide
  have t5 : litAt "| **Phase".data (phase5Row durs).data = true := by
    simp only [phase5Row]
    apply litAt_str_append
    apply litAt_str_append
    apply litAt_str_append
    decide
  have f1 : litAt "| **Phase".data "## Phase Breakdown Table".data = false := by decide
  have f2 : litAt "| **Phase".data ("" : String).data = false := by decide
  have f3 : litAt "| **Phase".data phaseHeaderRow.data = false := by decide
  have f4 : litAt "| **Phase".data phaseSepRow.data = false := by decide
  refine ⟨rfl, ?_, ?_, ?_, ?_, ?_⟩
  · simp [phaseLines, List.filter, t0, t1, t24, t5, f1, f2, f3, f4]
  · intro h
    simp only [phase0Row, h, Bool.false_eq_true, if_false]
    decide
  · intro h
    simp only [phase1Row, h, Option.getD_none]
    decide
  · intro h1 h2 h3
    simp only [phase24Row, phase24TimeStr, partitionCellStr, h1, h2, h3, Option.getD_none]
    decide
  · intro h
    simp only [phase5Row, h, Option.getD_none]
    decide

/-- Witness for C8: the fallback rows on the empty run. -/
theorem c8_witness :
    ((analyzeState []).hasMile "spark_session" = false
      ∧ (calculate_durations (analyzeState []).milestones).lookup "planning" = none
      ∧ (analyzeState []).metrics.job_duration_seconds = none
      ∧ (calculate_durations (analyzeState []).milestones).lookup "migration" = none
      ∧ (analyzeState []).metrics.partition_count = none
      ∧ (calculate_durations (analyzeState []).milestones).lookup "validation" = none)
    ∧ phase0Row (analyzeState []) (calculate_durations (analyzeState []).milestones) =
        "| **Phase 0 – Initialization** | Job 0, Stage 0 (pre-job) | **~0.0 seconds** | – | SparkSession creation, config loading, driver initialization, YugabyteDB driver registration, checkpoint table setup. Minimal impact on migration time. |"
    ∧ ((phaseLines (analyzeState [])
          (calculate_durations (analyzeState []).milestones)).length = 9) :=
  ⟨⟨by decide, by decide, by decide, by decide, by decide, by decide⟩,
   (c8_phase_table_rows (analyzeState [])
      (calculate_durations (analyzeState []).milestones)).2.2.1 (by decide),
   (c8_phase_table_rows (analyzeState [])
      (calculate_durations (analyzeState []).milestones)).1⟩

/-- The log used by C10: the primary milestone pair gives a 30-second
migration duration, while the extracted `job_duration_seconds` metric is
12.5 seconds. -/
def exLogC10 : List String :=
  ["2024-01-01 00:00:00 Got job 0",
   "2024-01-01 00:00:30 Job 0 finished: took 12.5 s"]

/-- C10: the Phase 2-4 row displays the `job_duration_seconds` metric when
it was extracted, overriding the milestone-pair `migration` duration
(which is displayed only when the metric is absent); in particular the row
does not depend on the milestones at all once the metric is present, and
on the concrete log the displayed time is `12.5`, not the pair's `30.0`. -/
theorem c10_job_duration_override :
    (∀ (m : Metrics) (durs : List (String × Int)) (f : PyFloat),
        m.job_duration_seconds = some f → phase24TimeStr m durs = fmtF 1 f)
  ∧ (∀ (m : Metrics) (durs : List (String × Int)),
        m.job_duration_seconds = none →
        phase24TimeStr m durs = fmtInt1 ((durs.lookup "migration").getD 0))
  ∧ (∀ (m : Metrics) (ms ms' : List (String × DateTime)),
        m.job_duration_seconds.isSome = true →
        phase24Row m (calculate_durations ms) = phase24Row m (calculate_durations ms'))
  ∧ (analyzeState exLogC10).metrics.job_duration_seconds = some ⟨125, 1⟩
  ∧ List.lookup "migration"
      (calculate_durations (analyzeState exLogC10).milestones) = some 30
  ∧ phase24TimeStr (analyzeState exLogC10).metrics
      (calculate_durations (analyzeState exLogC10).milestones) = "12.5"
  ∧ fmtInt1 30 = "30.0" := by
  refine ⟨?_, ?_, ?_, by decide, by decide, by decide, by decide⟩
  · intro m durs f h
    rw [phase24TimeStr, h]
  · intro m durs h
    rw [phase24TimeStr, h]
  · intro m ms ms' h
    obtain ⟨f, hf⟩ := Option.isSome_iff_exists.mp h
    rw [phase24Row, phase24Row, phase24TimeStr, phase24TimeStr, hf]

/-- Witness for C10: the override at the concrete run. -/
theorem c10_witness :
    ((analyzeState exLogC10).metrics.job_duration_seconds = some ⟨125, 1⟩)
    ∧ phase24TimeStr (analyzeState exLogC10).metrics
        (calculate_durations (analyzeState exLogC10).milestones) = fmtF 1 ⟨125, 1⟩ :=
  ⟨by decide,
   c10_job_duration_override.1 (analyzeState exLogC10).metrics
     (calculate_durations (analyzeState exLogC10).milestones) ⟨125, 1⟩ (by decide)⟩

end MigLog
